import Mathlib

/-!
# Verification of the envoy-client object/XML mapping and resource-sync layer

A shallow embedding, in Lean 4, of the Python source of `envoy-client`
(`envoy_client/models.py`, `envoy_client/interface.py`, `envoy_client/transport.py`,
`envoy_client/models/validated_types.py`), together with theorems settling the
behavioural claims made by the natural-language specification.

Machine integers are modelled as `Nat`/`Int` (Python integers are unbounded, so no
wrap-around modelling is needed); Python exceptions are modelled with `Except`;
Python `None` with `Option.none`.
-/

namespace EnvoyClient

/-! ## Decimal printing and parsing

Models Python `str(<int>)` and `int(<str>)` (base 10) for the values this code
produces and consumes.  `natRevDigits` extracts decimal digits least-significant
first; the fuel argument is `log2F n n + 1`, which is enough because a number has
no more decimal digits than binary digits. -/

def digitChar (d : Nat) : Char := Char.ofNat (48 + d)

def natRevDigits : Nat → Nat → List Nat
  | 0, _ => []
  | fuel + 1, n => if n < 10 then [n] else n % 10 :: natRevDigits fuel (n / 10)

/-- Fuel-based base-2 logarithm (the fuel argument makes it reduce by structural
recursion; called with `fuel = n`, which always suffices). -/
def log2F : Nat → Nat → Nat
  | 0, _ => 0
  | fuel + 1, n => if 2 ≤ n then log2F fuel (n / 2) + 1 else 0

theorem lt_two_pow_log2F (fuel : Nat) :
    ∀ n : Nat, n ≤ fuel → n < 2 ^ (log2F fuel n + 1) := by
  induction fuel with
  | zero => intro n hn; interval_cases n; simp [log2F]
  | succ fuel ih =>
    intro n hn
    by_cases h2 : 2 ≤ n
    · have hdiv : n / 2 ≤ fuel := by omega
      have := ih (n / 2) hdiv
      simp only [log2F, if_pos h2]
      have hpow : 2 ^ (log2F fuel (n / 2) + 1 + 1) = 2 * 2 ^ (log2F fuel (n / 2) + 1) := by
        ring
      omega
    · simp only [log2F, if_neg h2]
      omega

/-- Decimal string of a natural number: models Python `str(n)` for `n ≥ 0`.
The digit-extraction fuel `log2F n n + 1` covers all decimal digits, because a
number never has more decimal digits than binary digits. -/
def natStr (n : Nat) : String := String.mk ((natRevDigits (log2F n n + 1) n).reverse.map digitChar)

/-- Decimal string of an integer: models Python `str(i)`. -/
def intStr : Int → String
  | .ofNat n => natStr n
  | .negSucc n => "-" ++ natStr (n + 1)

def digitVal? (c : Char) : Option Nat :=
  if 48 ≤ c.toNat ∧ c.toNat ≤ 57 then some (c.toNat - 48) else Option.none

def parseNatDigits : List Char → Nat → Option Nat
  | [], acc => some acc
  | c :: cs, acc =>
    match digitVal? c with
    | some d => parseNatDigits cs (acc * 10 + d)
    | Option.none => Option.none

/-- Models Python `int(s)` for non-negative decimal strings (the subset this
library produces); anything that is not a plain run of decimal digits fails. -/
def parseNat (s : String) : Option Nat :=
  if s.data.isEmpty then Option.none else parseNatDigits s.data 0

/-- Models Python `int(s)` including a leading minus sign. -/
def parseInt (s : String) : Option Int :=
  match s.data with
  | [] => Option.none
  | c :: cs =>
    if c = '-' then
      if cs.isEmpty then Option.none else (parseNatDigits cs 0).map (fun n => -(n : Int))
    else
      (parseNatDigits (c :: cs) 0).map (fun n => (n : Int))

/-- The value denoted by a least-significant-first digit list. -/
def valRev (ds : List Nat) : Nat := ds.foldr (fun d acc => acc * 10 + d) 0

theorem valRev_natRevDigits (fuel : Nat) :
    ∀ n : Nat, n < 10 ^ fuel → valRev (natRevDigits fuel n) = n := by
  induction fuel with
  | zero =>
    intro n hn
    interval_cases n
    simp [natRevDigits, valRev]
  | succ fuel ih =>
    intro n hn
    by_cases h10 : n < 10
    · simp [natRevDigits, h10, valRev]
    · have hdiv : n / 10 < 10 ^ fuel := by
        rw [Nat.div_lt_iff_lt_mul (by norm_num)]
        calc n < 10 ^ (fuel + 1) := hn
        _ = 10 ^ fuel * 10 := by ring
      have := ih (n / 10) hdiv
      simp only [natRevDigits, if_neg h10, valRev, List.foldr_cons]
      show valRev (natRevDigits fuel (n / 10)) * 10 + n % 10 = n
      rw [this]
      omega

theorem natRevDigits_lt_ten (fuel : Nat) :
    ∀ n d : Nat, d ∈ natRevDigits fuel n → d < 10 := by
  induction fuel with
  | zero => intro n d hd; simp [natRevDigits] at hd
  | succ fuel ih =>
    intro n d hd
    by_cases h10 : n < 10
    · simp [natRevDigits, h10] at hd; omega
    · simp only [natRevDigits, if_neg h10, List.mem_cons] at hd
      rcases hd with h | h
      · omega
      · exact ih _ _ h

theorem natRevDigits_ne_nil (fuel n : Nat) (h : 0 < fuel) : natRevDigits fuel n ≠ [] := by
  cases fuel with
  | zero => omega
  | succ fuel =>
    by_cases h10 : n < 10 <;> simp [natRevDigits, h10]

theorem digitVal?_digitChar (d : Nat) (hd : d < 10) : digitVal? (digitChar d) = some d := by
  interval_cases d <;> decide

theorem parseNatDigits_map_digitChar (ds : List Nat) :
    ∀ acc : Nat, (∀ d ∈ ds, d < 10) →
      parseNatDigits (ds.map digitChar) acc = some (ds.foldl (fun a d => a * 10 + d) acc) := by
  induction ds with
  | nil => intro acc _; simp [parseNatDigits]
  | cons d ds ih =>
    intro acc hds
    have hd : d < 10 := hds d (List.mem_cons_self d ds)
    simp only [List.map_cons, parseNatDigits, digitVal?_digitChar d hd, List.foldl_cons]
    exact ih _ (fun x hx => hds x (List.mem_cons_of_mem d hx))

theorem lt_ten_pow_log2_succ (n : Nat) : n < 10 ^ (log2F n n + 1) := by
  calc n < 2 ^ (log2F n n + 1) := lt_two_pow_log2F n n le_rfl
  _ ≤ 10 ^ (log2F n n + 1) := Nat.pow_le_pow_left (by norm_num) _

theorem parseNatDigits_natStr (n : Nat) : parseNatDigits (natStr n).data 0 = some n := by
  have hall : ∀ d ∈ (natRevDigits (log2F n n + 1) n).reverse, d < 10 := by
    intro d hd
    exact natRevDigits_lt_ten _ n d (List.mem_reverse.mp hd)
  show parseNatDigits ((natRevDigits (log2F n n + 1) n).reverse.map digitChar) 0 = some n
  rw [parseNatDigits_map_digitChar _ 0 hall, List.foldl_reverse]
  have : (natRevDigits (log2F n n + 1) n).foldr (fun x y => y * 10 + x) 0 = valRev (natRevDigits (log2F n n + 1) n) := rfl
  rw [this, valRev_natRevDigits _ n (lt_ten_pow_log2_succ n)]

theorem natStr_data_ne_nil (n : Nat) : (natStr n).data ≠ [] := by
  show (natRevDigits (log2F n n + 1) n).reverse.map digitChar ≠ []
  simp only [ne_eq, List.map_eq_nil_iff, List.reverse_eq_nil_iff]
  exact natRevDigits_ne_nil _ n (Nat.succ_pos _)

theorem parseNat_natStr (n : Nat) : parseNat (natStr n) = some n := by
  rw [parseNat, if_neg (by simp [List.isEmpty_iff, natStr_data_ne_nil n])]
  exact parseNatDigits_natStr n

theorem digitChar_ne_dash (d : Nat) (hd : d < 10) : digitChar d ≠ '-' := by
  interval_cases d <;> decide

theorem parseInt_intStr (i : Int) : parseInt (intStr i) = some i := by
  cases i with
  | ofNat n =>
    show parseInt (natStr n) = some (n : Int)
    rw [parseInt]
    rcases hds : (natStr n).data with _ | ⟨c, cs⟩
    · exact absurd hds (natStr_data_ne_nil n)
    · have hc : c ≠ '-' := by
        have hmem : c ∈ (natRevDigits (log2F n n + 1) n).reverse.map digitChar := by
          have : c ∈ (natStr n).data := by rw [hds]; exact List.mem_cons_self c cs
          exact this
        rcases List.mem_map.mp hmem with ⟨d, hd, rfl⟩
        exact digitChar_ne_dash d (natRevDigits_lt_ten _ n d (List.mem_reverse.mp hd))
      have hpn := parseNatDigits_natStr n
      rw [hds] at hpn
      simp [hc, hpn]
  | negSucc n =>
    show parseInt ("-" ++ natStr (n + 1)) = some (Int.negSucc n)
    have hdata : ("-" ++ natStr (n + 1)).data = '-' :: (natStr (n + 1)).data := rfl
    have hne : ((natStr (n + 1)).data).isEmpty = false := by
      simp [List.isEmpty_iff, natStr_data_ne_nil (n + 1)]
    rw [parseInt]
    simp only [hdata]
    simp [hne, parseNatDigits_natStr (n + 1), Int.negSucc_eq]

/-! ## Hexadecimal parsing

Models Python `int(s, 16)` for the strings this library feeds it: an optional
`0x`/`0X` prefix followed by at least one hex digit (either case). -/

def hexDigitVal? (c : Char) : Option Nat :=
  if 48 ≤ c.toNat ∧ c.toNat ≤ 57 then some (c.toNat - 48)
  else if 97 ≤ c.toNat ∧ c.toNat ≤ 102 then some (c.toNat - 87)
  else if 65 ≤ c.toNat ∧ c.toNat ≤ 70 then some (c.toNat - 55)
  else Option.none

def parseHexDigits : List Char → Nat → Option Nat
  | [], acc => some acc
  | c :: cs, acc =>
    match hexDigitVal? c with
    | some d => parseHexDigits cs (acc * 16 + d)
    | Option.none => Option.none

def parseHex (s : String) : Option Nat :=
  match s.data with
  | '0' :: 'x' :: cs => if cs.isEmpty then Option.none else parseHexDigits cs 0
  | '0' :: 'X' :: cs => if cs.isEmpty then Option.none else parseHexDigits cs 0
  | cs => if cs.isEmpty then Option.none else parseHexDigits cs 0

/-! ## SFDI derivation (`EndDevice.calculate_sfdi`, models.py lines 426-438)

```python
@validator('sfdi', always=True)
def calculate_sfdi(cls, v, values):
    lfdi = int(values.get('lfdi'), 16)
    if lfdi and not v:
        bit_left_truncation_len = 36
        sfdi_no_sod_checksum = lfdi>>(lfdi.bit_length()-bit_left_truncation_len)
        sod_checksum = 10 - sum([int(digit) for digit in str(sfdi_no_sod_checksum)]) % 10
        return str(sfdi_no_sod_checksum) + str(sod_checksum)
    return v
```

Python semantics that the model makes explicit: `not v` is true for both `None`
and the empty string (falsiness); `>>` with a negative shift count raises
`ValueError`; `%` binds tighter than `-`, so the checksum is `10 - (digit_sum % 10)`,
which lies in `1..10`. -/

/-- Python `n.bit_length()`. -/
def bitLength (n : Nat) : Nat := if n = 0 then 0 else log2F n n + 1

/-- `sum(int(digit) for digit in str(n))`: sum of decimal digits via the decimal string. -/
def sodSum (n : Nat) : Nat := ((natStr n).data.map (fun c => (digitVal? c).getD 0)).sum

/-- The body of `EndDevice.calculate_sfdi` after `int(values.get('lfdi'), 16)`
has produced the integer `lfdi`; `v` is the supplied `sfdi` field value. -/
def calculate_sfdi (lfdi : Nat) (v : Option String) : Except String (Option String) :=
  if lfdi ≠ 0 ∧ (v = Option.none ∨ v = some "") then
    if bitLength lfdi < 36 then
      Except.error "negative shift count"
    else
      let sfdi_no_sod_checksum := lfdi >>> (bitLength lfdi - 36)
      let sod_checksum := 10 - sodSum sfdi_no_sod_checksum % 10
      Except.ok (some (natStr sfdi_no_sod_checksum ++ natStr sod_checksum))
  else
    Except.ok v

/-- The whole validator, from the `lfdi` hex string: `int(values.get('lfdi'), 16)`
raises (a pydantic validation error) when the string is not valid hex. -/
def sfdiValidator (lfdiStr : String) (v : Option String) : Except String (Option String) :=
  match parseHex lfdiStr with
  | some lfdi => calculate_sfdi lfdi v
  | Option.none => Except.error "invalid literal for int() with base 16"

deriving instance DecidableEq for Except

/-- **C1.** For every `EndDevice` built with no `sfdi` supplied and an `lfdi` whose
integer value `L` has bit length at least 36, the stored sfdi equals the decimal
string of `T = L >> (bit_length L - 36)` concatenated with the decimal string of
the checksum `10 - (sum of decimal digits of T mod 10)`; concretely, for lfdi
`"0x222099d639e"` the result is the fixed digit string `"366439602065"`, and the
derivation is a pure, deterministic function of the lfdi string. -/
theorem sfdi_of_lfdi_is_truncation_plus_checksum (L : Nat) (h36 : 36 ≤ bitLength L) :
    calculate_sfdi L Option.none =
      Except.ok (some (natStr (L >>> (bitLength L - 36)) ++
        natStr (10 - sodSum (L >>> (bitLength L - 36)) % 10))) ∧
    sfdiValidator "0x222099d639e" Option.none = Except.ok (some "366439602065") ∧
    sfdiValidator "0x222099d639e" Option.none = sfdiValidator "0x222099d639e" Option.none := by
  refine ⟨?_, by decide, rfl⟩
  have hL : L ≠ 0 := by
    intro h0; rw [h0] at h36; simp [bitLength] at h36
  rw [calculate_sfdi, if_pos ⟨hL, Or.inl rfl⟩, if_neg (by omega)]

/-- Witness for C1 at the lfdi integer value `0x222099d639e = 2345213453214`. -/
theorem sfdi_of_lfdi_is_truncation_plus_checksum_w :
    36 ≤ bitLength 2345213453214 ∧
    calculate_sfdi 2345213453214 Option.none =
      Except.ok (some (natStr (2345213453214 >>> (bitLength 2345213453214 - 36)) ++
        natStr (10 - sodSum (2345213453214 >>> (bitLength 2345213453214 - 36)) % 10))) :=
  ⟨by decide, (sfdi_of_lfdi_is_truncation_plus_checksum 2345213453214 (by decide)).1⟩

/-- **C7 counterexample.** With lfdi `"0x0"` (integer value 0, bit length 0 < 36)
and no sfdi supplied, the derivation does not raise: the validator returns the
unset sfdi (`None`) unchanged. -/
theorem low_bitlength_lfdi_zero_no_error :
    sfdiValidator "0x0" Option.none = Except.ok Option.none ∧ bitLength 0 < 36 :=
  ⟨by decide, by decide⟩

/-- **C7 (amended).** For every `EndDevice` with no sfdi supplied and an lfdi of
**nonzero** integer value with bit length strictly below 36, the derivation raises
immediately (Python `ValueError`: negative shift count); an lfdi of integer value
0 instead skips the derivation entirely, leaving the sfdi unset rather than
raising. -/
theorem low_bitlength_nonzero_lfdi_raises (L : Nat) (hpos : 0 < L) (hlt : bitLength L < 36) :
    calculate_sfdi L Option.none = Except.error "negative shift count" := by
  rw [calculate_sfdi, if_pos ⟨by omega, Or.inl rfl⟩, if_pos hlt]

/-- Witness for the amended C7 at `L = 5`. -/
theorem low_bitlength_nonzero_lfdi_raises_w :
    0 < 5 ∧ bitLength 5 < 36 ∧
      calculate_sfdi 5 Option.none = Except.error "negative shift count" :=
  ⟨by decide, by decide, low_bitlength_nonzero_lfdi_raises 5 (by decide) (by decide)⟩

/-- **C8 counterexample.** Supplying the empty string as sfdi alongside a valid
lfdi is not passed through unchanged: the empty string is falsy in Python, so the
derivation runs and replaces it. -/
theorem empty_sfdi_not_passed_through :
    calculate_sfdi 2345213453214 (some "") ≠ Except.ok (some "") := by decide

theorem calculate_sfdi_passthrough (L : Nat) (s : String) (hs : s ≠ "") :
    calculate_sfdi L (some s) = Except.ok (some s) := by
  rw [calculate_sfdi, if_neg]
  rintro ⟨-, h | h⟩
  · simp at h
  · simp at h; exact hs h

theorem calculate_sfdi_ok_none (L : Nat) (v : Option String)
    (h : calculate_sfdi L v = Except.ok Option.none) :
    L = 0 := by
  rw [calculate_sfdi] at h
  by_cases hc : L ≠ 0 ∧ (v = Option.none ∨ v = some "")
  · rw [if_pos hc] at h
    by_cases hb : bitLength L < 36
    · rw [if_pos hb] at h; exact absurd h (by simp)
    · rw [if_neg hb] at h; exact absurd h (by simp)
  · by_contra hL
    rw [if_neg hc] at h
    simp only [Except.ok.injEq] at h
    exact hc ⟨hL, Or.inl h⟩

/-- Re-running the sfdi validator on its own output returns it unchanged
(provided the output is not the empty string, which the validator never
produces from a supplied non-empty or unsupplied sfdi). -/
theorem sfdiValidator_idem (lfdiStr : String) (v out : Option String)
    (h : sfdiValidator lfdiStr v = Except.ok out)
    (hout : ∀ s, out = some s → s ≠ "") :
    sfdiValidator lfdiStr out = Except.ok out := by
  rw [sfdiValidator] at h ⊢
  cases hp : parseHex lfdiStr with
  | none => rw [hp] at h; exact absurd h (by simp)
  | some L =>
    rw [hp] at h
    simp only [hp]
    cases hv : out with
    | some s => exact calculate_sfdi_passthrough L s (hout s hv)
    | none =>
      rw [hv] at h
      have hL : L = 0 := calculate_sfdi_ok_none L v h
      rw [calculate_sfdi, if_neg (by simp [hL])]

/-- **C8 (amended).** Any explicitly supplied **non-empty** sfdi string is stored
unchanged, regardless of the lfdi value and of what the derivation would compute;
a supplied empty string is treated as unsupplied and triggers the derivation (see
the counterexample). -/
theorem supplied_sfdi_passes_through (L : Nat) (s : String) (hs : s ≠ "") :
    calculate_sfdi L (some s) = Except.ok (some s) :=
  calculate_sfdi_passthrough L s hs

/-- Witness for the amended C8. -/
theorem supplied_sfdi_passes_through_w :
    ("12345" : String) ≠ "" ∧
      calculate_sfdi 2345213453214 (some "12345") = Except.ok (some "12345") :=
  ⟨by decide, supplied_sfdi_passes_through 2345213453214 "12345" (by decide)⟩

/-! ## The typed data model (models.py)

Each pydantic model class becomes a structure.  `Config.use_enum_values` makes
enum-typed fields hold the underlying integer after validation, so enum fields
are modelled as `Int` together with the list of admissible values.  Optional
fields become `Option`; Python floats (only `GPSLocationType.lat/lon`) are
modelled as rationals. -/

def deviceCategoryValues : List Int :=
  [65536, 262144, 524288, 2097152, 8388608, 16777216, 33554432]

def functionsImplementedValues : List Int :=
  [0, 1, 2, 4, 8, 16, 32, 64, 128, 256, 512, 1024, 2048, 4096, 8192, 16384,
   32768, 65536, 131072, 262144, 524288]

def powerSourceValues : List Int := [0, 1, 2, 3, 4, 5]

def derTypeValues : List Int := [0, 1, 2, 3, 4, 5, 6, 80, 81, 82, 83]

structure LinkM where
  href : Option String
deriving DecidableEq

structure GPSLocationTypeM where
  lat : Rat
  lon : Rat
deriving DecidableEq

structure ValueWithMultiplierM where
  multipler : Int
  value : Int
deriving DecidableEq

structure DeviceInformationM where
  functions_implemented : Option Int
  gps_location : Option GPSLocationTypeM
  lfdi : String
  mf_date : Int
  mf_hw_ver : Option String
  mf_id : Option Int
  mf_info : Option String
  mf_model : Option String
  mf_ser_num : Option String
  primary_power : Option Int
  secondary_power : Option Int
  sw_act_time : Option Int
  sw_ver : Option String
deriving DecidableEq

structure DERCapabilityM where
  modes_supported : Int
  rtg_max_a : Option ValueWithMultiplierM
  rtg_max_ah : Option ValueWithMultiplierM
  rtg_max_w : Option ValueWithMultiplierM
  rtg_max_charge_rate_va : Option ValueWithMultiplierM
  rtg_max_charge_rate_w : Option ValueWithMultiplierM
  rtg_max_discharge_rate_va : Option ValueWithMultiplierM
  rtg_max_discharge_rate_w : Option ValueWithMultiplierM
  type_ : Int
deriving DecidableEq

structure DERM where
  der_capability : Option DERCapabilityM
deriving DecidableEq

structure ConnectionPointM where
  connection_point_id : Option String
  meter_id : Option String
deriving DecidableEq

structure EndDeviceM where
  device_category : Int
  lfdi : String
  sfdi : Option String
  changed_time : Int
  post_rate : Int
  enabled : Bool
  der_list_link : Option LinkM
  device_information_link : Option LinkM
  der : Option (List DERM)
  device_information : Option DeviceInformationM
  connection_point : Option ConnectionPointM
deriving DecidableEq

/-! ## List normalization (`EndDeviceList.ensure_list`, models.py lines 449-454)

```python
end_device: Union[List[EndDevice], EndDevice] = Field(alias='EndDevice')

@validator('end_device')
def ensure_list(cls, v):
    if not isinstance(v, list):
        return [v]
    return v
```

The decoded `Union[List[EndDevice], EndDevice]` value is a sum: either a genuine
list or a single element. -/

def ensure_list : List EndDeviceM ⊕ EndDeviceM → List EndDeviceM
  | .inl v => v
  | .inr e => [e]

structure EndDeviceListM where
  end_device : List EndDeviceM
deriving DecidableEq

/-- `EndDeviceList(**decoded)`: the validator normalizes the item field. -/
def mkEndDeviceList (v : List EndDeviceM ⊕ EndDeviceM) : EndDeviceListM :=
  ⟨ensure_list v⟩

/-- **C3.** Constructing a list wrapper from a decoded mapping normalizes a single
(non-list) element into a one-element collection, and a decoded list of elements
passes through with exactly the same elements in the same order. -/
theorem list_wrapper_normalizes_singleton :
    (∀ e : EndDeviceM, mkEndDeviceList (.inr e) = ⟨[e]⟩) ∧
    (∀ l : List EndDeviceM, mkEndDeviceList (.inl l) = ⟨l⟩) :=
  ⟨fun _ => rfl, fun _ => rfl⟩

/-! ## `StrictIntFlag.validate` (models/validated_types.py lines 16-33)

```python
@classmethod
def validate(cls, value):
    if not isinstance(value, cls):
        if isinstance(value, int):
            max_value = 1 + reduce(lambda a, b: a + 2 ** b, range(len(cls)))
            if value >= 0 and value <= max_value:
                return value
            raise ValueError(...)
        raise TypeError(...)
    return value
```

`reduce` without an initializer uses the first element of `range(n)` (which is 0)
as the seed and raises `TypeError` on an empty sequence. -/

/-- `reduce(lambda a, b: a + 2 ** b, l)`: `Option.none` models the `TypeError`
raised on an empty sequence. -/
def reduceAdd2Pow : List Nat → Option Nat
  | [] => Option.none
  | x :: xs => some (xs.foldl (fun a b => a + 2 ^ b) x)

/-- `1 + reduce(lambda a, b: a + 2 ** b, range(len(cls)))` where `n = len(cls)`. -/
def strictIntFlagMaxValue (n : Nat) : Option Nat :=
  (reduceAdd2Pow (List.range n)).map (1 + ·)

/-- Possible Python inputs to `validate`: an instance of the flag class itself,
a plain `int`, or anything else. -/
inductive PyFlagInput where
  | flagMember (value : Int)
  | intValue (value : Int)
  | otherValue
deriving DecidableEq

inductive PyError where
  | valueError
  | typeError
deriving DecidableEq

def strictIntFlag_validate (n : Nat) (input : PyFlagInput) : Except PyError PyFlagInput :=
  match input with
  | .flagMember _ => Except.ok input
  | .intValue v =>
    match strictIntFlagMaxValue n with
    | Option.none => Except.error .typeError
    | some m => if 0 ≤ v ∧ v ≤ (m : Int) then Except.ok input else Except.error .valueError
  | .otherValue => Except.error .typeError

theorem reduceAdd2Pow_append_singleton (l : List Nat) (hl : l ≠ []) (b : Nat) :
    reduceAdd2Pow (l ++ [b]) = (reduceAdd2Pow l).map (· + 2 ^ b) := by
  cases l with
  | nil => exact absurd rfl hl
  | cons x xs => simp [reduceAdd2Pow, List.foldl_append]

theorem reduceAdd2Pow_range (n : Nat) (hn : 1 ≤ n) :
    reduceAdd2Pow (List.range n) = some (2 ^ n - 2) := by
  induction n with
  | zero => omega
  | succ n ih =>
    by_cases h1 : 1 ≤ n
    · have hne : List.range n ≠ [] := by
        simp only [ne_eq, List.range_eq_nil]
        omega
      rw [List.range_succ, reduceAdd2Pow_append_singleton _ hne, ih h1, Option.map_some']
      have h2 : 2 ≤ 2 ^ n := by
        calc 2 = 2 ^ 1 := by norm_num
        _ ≤ 2 ^ n := Nat.pow_le_pow_right (by norm_num) h1
      have hsucc : 2 ^ (n + 1) = 2 * 2 ^ n := by ring
      congr 1
      omega
    · have : n = 0 := by omega
      subst this
      decide

theorem strictIntFlagMaxValue_eq (n : Nat) (hn : 1 ≤ n) :
    strictIntFlagMaxValue n = some (2 ^ n - 1) := by
  rw [strictIntFlagMaxValue, reduceAdd2Pow_range n hn, Option.map_some']
  have h2 : 2 ≤ 2 ^ n := by
    calc 2 = 2 ^ 1 := by norm_num
    _ ≤ 2 ^ n := Nat.pow_le_pow_right (by norm_num) hn
  congr 1
  omega

/-- **C10.** For a `StrictIntFlag` subclass with `n ≥ 1` declared single-bit flag
members, `validate` accepts an integer exactly when `0 ≤ value ≤ 2^n - 1` (every
combination of the `n` flags and nothing above), raises `ValueError` for every
integer outside that range, and raises `TypeError` for a non-integer, non-flag
input. -/
theorem strictIntFlag_validate_range (n : Nat) (hn : 1 ≤ n) (v : Int) :
    (0 ≤ v ∧ v ≤ (2 : Int) ^ n - 1 →
      strictIntFlag_validate n (.intValue v) = Except.ok (.intValue v)) ∧
    (¬(0 ≤ v ∧ v ≤ (2 : Int) ^ n - 1) →
      strictIntFlag_validate n (.intValue v) = Except.error .valueError) ∧
    strictIntFlag_validate n .otherValue = Except.error .typeError := by
  have hmax := strictIntFlagMaxValue_eq n hn
  have hcast : ((2 ^ n - 1 : Nat) : Int) = (2 : Int) ^ n - 1 := by
    have h1 : 1 ≤ 2 ^ n := Nat.one_le_two_pow
    push_cast [h1]
    ring
  refine ⟨?_, ?_, rfl⟩
  · intro hv
    simp only [strictIntFlag_validate, hmax]
    rw [if_pos (by rw [hcast]; exact hv)]
  · intro hv
    simp only [strictIntFlag_validate, hmax]
    rw [if_neg (by rw [hcast]; exact hv)]

/-- Witness for C10 at `n = 7` (the `RoleFlagsType` flag class) and `value = 5`. -/
theorem strictIntFlag_validate_range_w :
    1 ≤ 7 ∧
      (0 ≤ (5 : Int) ∧ (5 : Int) ≤ (2 : Int) ^ 7 - 1 →
        strictIntFlag_validate 7 (.intValue 5) = Except.ok (.intValue 5)) :=
  ⟨by decide, (strictIntFlag_validate_range 7 (by decide) 5).1⟩

/-! ## Pagination (`EndDeviceInterface.get_paged_end_devices`, interface.py 56-74)

```python
def get_paged_end_devices(self, include_self=False, start=0, page_size=10):
    result = self.get_end_devices(start=start, limit=page_size)
    while result:
        num_results = len(result.end_device)
        if include_self:
            yield result
        else:
            filtered = filter(lambda item: item.lfdi != self.lfdi, result.end_device)
            result.end_device = list(filtered)
            yield result
        start = start + num_results
        result = self.get_end_devices(start=start, limit=page_size)
```

The server is modelled as a function from `(start, limit)` to the page it
returns; `get_end_devices` returns `None` exactly when the response carries no
`EndDevice` child, i.e. when the page is empty (interface.py 76-95). -/

def getEndDevices (server : Nat → Nat → List EndDeviceM) (start limit : Nat) :
    Option (List EndDeviceM) :=
  let page := server start limit
  if page.isEmpty then Option.none else some page

/-- One yielded page: when `include_self` is false, entries whose `lfdi` equals
the caller's own `lfdi` are filtered out. -/
def yieldedPage (selfLfdi : String) (includeSelf : Bool) (page : List EndDeviceM) :
    List EndDeviceM :=
  if includeSelf then page else page.filter (fun item => item.lfdi != selfLfdi)

/-- The generator run, fuel-bounded: `fuel` bounds how many loop iterations are
inspected (the loop itself stops at the first empty page); `start` advances by
the page length **before** filtering (`num_results`). -/
def getPagedEndDevices (server : Nat → Nat → List EndDeviceM) (selfLfdi : String)
    (includeSelf : Bool) (pageSize : Nat) : Nat → Nat → List (List EndDeviceM)
  | 0, _ => []
  | fuel + 1, start =>
    match getEndDevices server start pageSize with
    | Option.none => []
    | some page =>
      yieldedPage selfLfdi includeSelf page ::
        getPagedEndDevices server selfLfdi includeSelf pageSize fuel (start + page.length)

/-- The sequence of `start` offsets the generator visits. -/
def pageStarts (server : Nat → Nat → List EndDeviceM) (pageSize start0 : Nat) : Nat → Nat
  | 0 => start0
  | k + 1 =>
    pageStarts server pageSize start0 k +
      (server (pageStarts server pageSize start0 k) pageSize).length

theorem pageStarts_shift (server : Nat → Nat → List EndDeviceM) (pageSize start0 : Nat) :
    ∀ k : Nat,
      pageStarts server pageSize (start0 + (server start0 pageSize).length) k =
        pageStarts server pageSize start0 (k + 1) := by
  intro k
  induction k with
  | zero => rfl
  | succ k ih => simp only [pageStarts, ih]

theorem getPagedEndDevices_succ_none {server : Nat → Nat → List EndDeviceM}
    {selfLfdi : String} {includeSelf : Bool} {pageSize fuel start : Nat}
    (h : getEndDevices server start pageSize = Option.none) :
    getPagedEndDevices server selfLfdi includeSelf pageSize (fuel + 1) start = [] := by
  simp [getPagedEndDevices, h]

theorem getPagedEndDevices_succ_some {server : Nat → Nat → List EndDeviceM}
    {selfLfdi : String} {includeSelf : Bool} {pageSize fuel start : Nat}
    {page : List EndDeviceM} (h : getEndDevices server start pageSize = some page) :
    getPagedEndDevices server selfLfdi includeSelf pageSize (fuel + 1) start =
      yieldedPage selfLfdi includeSelf page ::
        getPagedEndDevices server selfLfdi includeSelf pageSize fuel (start + page.length) := by
  simp [getPagedEndDevices, h]

theorem getEndDevices_eq_none {server : Nat → Nat → List EndDeviceM} {start limit : Nat}
    (h : server start limit = []) : getEndDevices server start limit = Option.none := by
  simp [getEndDevices, List.isEmpty_iff, h]

theorem getEndDevices_eq_some {server : Nat → Nat → List EndDeviceM} {start limit : Nat}
    {page : List EndDeviceM} (h : getEndDevices server start limit = some page) :
    page = server start limit ∧ server start limit ≠ [] := by
  rw [getEndDevices] at h
  by_cases hh : (server start limit).isEmpty = true
  · simp [hh] at h
  · simp only [hh, Bool.false_eq_true, if_false, Option.some.injEq] at h
    exact ⟨h.symm, by simpa [List.isEmpty_iff] using hh⟩

theorem getPagedEndDevices_filter_eq_map (server : Nat → Nat → List EndDeviceM)
    (selfLfdi : String) (pageSize : Nat) :
    ∀ fuel start : Nat,
      getPagedEndDevices server selfLfdi false pageSize fuel start =
        (getPagedEndDevices server selfLfdi true pageSize fuel start).map
          (fun page => page.filter (fun item => item.lfdi != selfLfdi)) := by
  intro fuel
  induction fuel with
  | zero => intro start; rfl
  | succ fuel ih =>
    intro start
    cases hpage : getEndDevices server start pageSize with
    | none => rw [getPagedEndDevices_succ_none hpage, getPagedEndDevices_succ_none hpage]; rfl
    | some page =>
      rw [getPagedEndDevices_succ_some hpage, getPagedEndDevices_succ_some hpage,
        List.map_cons, ih]
      rfl

theorem getPagedEndDevices_stable (server : Nat → Nat → List EndDeviceM)
    (selfLfdi : String) (includeSelf : Bool) (pageSize : Nat) :
    ∀ k start0 : Nat, server (pageStarts server pageSize start0 k) pageSize = [] →
      ∀ fuel : Nat, k + 1 ≤ fuel →
        getPagedEndDevices server selfLfdi includeSelf pageSize fuel start0 =
          getPagedEndDevices server selfLfdi includeSelf pageSize (k + 1) start0 := by
  intro k
  induction k with
  | zero =>
    intro start0 hempty fuel hfuel
    obtain ⟨f, rfl⟩ : ∃ f, fuel = f + 1 := ⟨fuel - 1, by omega⟩
    simp only [pageStarts] at hempty
    rw [getPagedEndDevices_succ_none (getEndDevices_eq_none hempty),
      getPagedEndDevices_succ_none (getEndDevices_eq_none hempty)]
  | succ k ih =>
    intro start0 hempty fuel hfuel
    obtain ⟨f, rfl⟩ : ∃ f, fuel = f + 1 := ⟨fuel - 1, by omega⟩
    cases hpage : getEndDevices server start0 pageSize with
    | none =>
      rw [getPagedEndDevices_succ_none hpage, getPagedEndDevices_succ_none hpage]
    | some page =>
      obtain ⟨hpage', -⟩ := getEndDevices_eq_some hpage
      have hempty' :
          server (pageStarts server pageSize
            (start0 + (server start0 pageSize).length) k) pageSize = [] := by
        rw [pageStarts_shift]; exact hempty
      rw [getPagedEndDevices_succ_some hpage, getPagedEndDevices_succ_some hpage]
      refine congrArg₂ _ rfl ?_
      rw [hpage']
      exact ih _ hempty' f (by omega)

theorem getPagedEndDevices_yields_nonempty_pages (server : Nat → Nat → List EndDeviceM)
    (selfLfdi : String) (pageSize : Nat) :
    ∀ k start0 : Nat, server (pageStarts server pageSize start0 k) pageSize = [] →
      ∃ j ≤ k,
        getPagedEndDevices server selfLfdi true pageSize (k + 1) start0 =
          (List.range j).map (fun i => server (pageStarts server pageSize start0 i) pageSize) ∧
        ∀ i < j, server (pageStarts server pageSize start0 i) pageSize ≠ [] := by
  intro k
  induction k with
  | zero =>
    intro start0 hempty
    refine ⟨0, le_rfl, ?_, by omega⟩
    simp only [pageStarts] at hempty
    rw [getPagedEndDevices_succ_none (getEndDevices_eq_none hempty)]
    rfl
  | succ k ih =>
    intro start0 hempty
    cases hpage : getEndDevices server start0 pageSize with
    | none =>
      refine ⟨0, by omega, ?_, by omega⟩
      rw [getPagedEndDevices_succ_none hpage]
      rfl
    | some page =>
      obtain ⟨hpage', hne0⟩ := getEndDevices_eq_some hpage
      have hempty' :
          server (pageStarts server pageSize
            (start0 + (server start0 pageSize).length) k) pageSize = [] := by
        rw [pageStarts_shift]; exact hempty
      obtain ⟨j, hjk, heq, hnonempty⟩ := ih _ hempty'
      refine ⟨j + 1, by omega, ?_, ?_⟩
      · rw [getPagedEndDevices_succ_some hpage]
        have hyield : yieldedPage selfLfdi true page = page := rfl
        rw [hyield, hpage', heq]
        rw [List.range_succ_eq_map, List.map_cons, List.map_map]
        refine congrArg₂ _ rfl ?_
        refine congrArg₂ _ ?_ rfl
        funext i
        show server (pageStarts server pageSize
          (start0 + (server start0 pageSize).length) i) pageSize = _
        rw [pageStarts_shift]
        rfl
      · intro i hi
        cases i with
        | zero => exact hne0
        | succ i =>
          have := hnonempty i (by omega)
          rw [pageStarts_shift] at this
          exact this

/-- **C6.** For every server modelled as a function from `(start, limit)` to a
page: the paged-devices generator advances `start` by the (pre-filter) number of
items of each page, terminates as soon as the visited offsets hit an empty page
(the run is stable in the fuel bound), yields exactly the non-empty pages in
order, and with `include_self = false` each yielded page has the entries whose
`lfdi` equals the caller's own `lfdi` removed. -/
theorem paged_end_devices_terminate_and_filter (server : Nat → Nat → List EndDeviceM)
    (selfLfdi : String) (pageSize start0 k : Nat)
    (hempty : server (pageStarts server pageSize start0 k) pageSize = []) :
    (∀ fuel : Nat, k + 1 ≤ fuel →
      getPagedEndDevices server selfLfdi false pageSize fuel start0 =
        getPagedEndDevices server selfLfdi false pageSize (k + 1) start0) ∧
    (∀ fuel start : Nat,
      getPagedEndDevices server selfLfdi false pageSize fuel start =
        (getPagedEndDevices server selfLfdi true pageSize fuel start).map
          (fun page => page.filter (fun item => item.lfdi != selfLfdi))) ∧
    (∃ j ≤ k,
      getPagedEndDevices server selfLfdi true pageSize (k + 1) start0 =
        (List.range j).map (fun i => server (pageStarts server pageSize start0 i) pageSize) ∧
      ∀ i < j, server (pageStarts server pageSize start0 i) pageSize ≠ []) :=
  ⟨fun fuel hfuel => getPagedEndDevices_stable server selfLfdi false pageSize k start0 hempty fuel hfuel,
   fun fuel start => getPagedEndDevices_filter_eq_map server selfLfdi pageSize fuel start,
   getPagedEndDevices_yields_nonempty_pages server selfLfdi pageSize k start0 hempty⟩

/-- A concrete three-iteration server for the C6 witness: page `[self, other]` at
offset 0, page `[other]` at offset 2, empty from offset 3 on. -/
def witnessServer : Nat → Nat → List EndDeviceM :=
  fun start _ =>
    if start = 0 then
      [⟨65536, "0xa", some "1", 0, 0, true, Option.none, Option.none, Option.none, Option.none, Option.none⟩,
       ⟨65536, "0xb", some "2", 0, 0, true, Option.none, Option.none, Option.none, Option.none, Option.none⟩]
    else if start = 2 then
      [⟨65536, "0xb", some "2", 0, 0, true, Option.none, Option.none, Option.none, Option.none, Option.none⟩]
    else []

/-- Witness for C6: the concrete server returns its third visited page empty, and
the run with any larger fuel equals the three-step run. -/
theorem paged_end_devices_terminate_and_filter_w :
    witnessServer (pageStarts witnessServer 10 0 2) 10 = [] ∧
    getPagedEndDevices witnessServer "0xa" false 10 10 0 =
      getPagedEndDevices witnessServer "0xa" false 10 3 0 :=
  ⟨by decide,
   (paged_end_devices_terminate_and_filter witnessServer "0xa" 10 0 2 (by decide)).1 10 (by decide)⟩

/-! ## Transport connection (transport.py 55-60, 76-83; auth.py)

```python
class Transport:
    def connect(self):
        if self.is_connected:
            logging.info(f"{self.__class__} is already connected")

class RequestsTransport(Transport):
    def connect(self):
        if self.is_connected:
            logger.info(f"{self.__class__} is already connected")
        self.session = requests.Session()
        if self.auth:
            self.auth.update_session(self.session)
        self.session.headers["Content-Type"] = 'application/xml'
        self.is_connected = True
```

A `requests.Session` object is modelled with an identity tag `sid`: every
`requests.Session()` call allocates a fresh object, passed in as `freshSid`. -/

inductive AuthM where
  | localModeXToken (lfdi : String)
  | clientCertificate (cert : String)
deriving DecidableEq

structure SessionM where
  sid : Nat
  headers : List (String × String)
  cert : Option String
deriving DecidableEq

structure TransportState where
  base_url : String
  auth : Option AuthM
  is_connected : Bool
  session : Option SessionM
deriving DecidableEq

def setHeader (headers : List (String × String)) (k v : String) : List (String × String) :=
  if headers.any (fun kv => kv.1 == k) then
    headers.map (fun kv => if kv.1 == k then (k, v) else kv)
  else headers ++ [(k, v)]

/-- `update_session` (auth.py): `LocalModeXTokenAuth` sets `X-Token` to the
decimal string of the lfdi's integer value (raising on invalid hex) and clears
`X-Forwarded-Client-Cert`; `ClientCerticateAuth` sets the session certificate. -/
def authUpdateSession (a : AuthM) (s : SessionM) : Except String SessionM :=
  match a with
  | .localModeXToken lfdi =>
    match parseHex lfdi with
    | some v =>
      Except.ok { s with
        headers := setHeader (setHeader s.headers "X-Token" (natStr v))
          "X-Forwarded-Client-Cert" "" }
    | Option.none => Except.error "invalid literal for int() with base 16"
  | .clientCertificate cert => Except.ok { s with cert := some cert }

/-- `Transport.connect`: the base class only logs when already connected and
leaves the state untouched. -/
def transport_connect (t : TransportState) : TransportState × List String :=
  (t, if t.is_connected then ["is already connected"] else [])

/-- `RequestsTransport.connect`: logs when already connected, but then
unconditionally creates a fresh session, applies auth, sets the Content-Type
header, installs the new session and marks the transport connected. -/
def requestsTransport_connect (t : TransportState) (freshSid : Nat) :
    Except String (TransportState × List String) :=
  match (match t.auth with
         | some a => authUpdateSession a ⟨freshSid, [], Option.none⟩
         | Option.none => Except.ok ⟨freshSid, [], Option.none⟩) with
  | Except.error e => Except.error e
  | Except.ok s1 =>
    Except.ok ({ t with
        session := some { s1 with
          headers := setHeader s1.headers "Content-Type" "application/xml" },
        is_connected := true },
      if t.is_connected then ["is already connected"] else [])

/-- An already-connected `RequestsTransport` whose current session object has
identity 0. -/
def connectedTransport0 : TransportState :=
  ⟨"https://server.example", Option.none, true,
    some ⟨0, [("Content-Type", "application/xml")], Option.none⟩⟩

/-- **C9 counterexample.** Calling `connect` on an already-connected
`RequestsTransport` is not a state-preserving no-op: the session object is
replaced by a freshly allocated one (identity 1 instead of 0). -/
theorem reconnect_replaces_session :
    connectedTransport0.is_connected = true ∧
    (requestsTransport_connect connectedTransport0 1).map (fun p => p.1.session) ≠
      Except.ok connectedTransport0.session := by
  refine ⟨rfl, ?_⟩
  decide

theorem authUpdateSession_sid (a : AuthM) (s s' : SessionM)
    (h : authUpdateSession a s = Except.ok s') : s'.sid = s.sid := by
  cases a with
  | localModeXToken lfdi =>
    rw [authUpdateSession] at h
    cases hp : parseHex lfdi with
    | some v =>
      rw [hp] at h
      simp only [Except.ok.injEq] at h
      rw [← h]
    | none => rw [hp] at h; exact absurd h (by simp)
  | clientCertificate cert =>
    rw [authUpdateSession] at h
    simp only [Except.ok.injEq] at h
    rw [← h]

/-- **C9 (amended).** On an already-connected transport, the base
`Transport.connect` is indeed a no-op apart from the log line; but
`RequestsTransport.connect` (the transport actually used), while it emits the
same log line and keeps `base_url`/`auth`/`is_connected` intact, always installs
a freshly created session object in place of the existing one. -/
theorem reconnect_logs_but_installs_fresh_session (t : TransportState) (freshSid : Nat)
    (hconn : t.is_connected = true) :
    transport_connect t = (t, ["is already connected"]) ∧
    (∀ t' logs, requestsTransport_connect t freshSid = Except.ok (t', logs) →
      t'.is_connected = true ∧ t'.base_url = t.base_url ∧ t'.auth = t.auth ∧
      logs = ["is already connected"] ∧
      ∃ s, t'.session = some s ∧ s.sid = freshSid) := by
  constructor
  · simp [transport_connect, hconn]
  · intro t' logs h
    rw [requestsTransport_connect] at h
    cases hs1 : (match t.auth with
                 | some a => authUpdateSession a ⟨freshSid, [], Option.none⟩
                 | Option.none => Except.ok ⟨freshSid, [], Option.none⟩) with
    | error e => rw [hs1] at h; exact absurd h (by simp)
    | ok s1 =>
      rw [hs1] at h
      simp only [Except.ok.injEq] at h
      injection h with h1 h2
      subst h1
      subst h2
      have hsid : s1.sid = freshSid := by
        cases hauth : t.auth with
        | none =>
          rw [hauth] at hs1
          simp only [Except.ok.injEq] at hs1
          rw [← hs1]
        | some a => rw [hauth] at hs1; exact authUpdateSession_sid a _ _ hs1
      exact ⟨rfl, rfl, rfl, by simp [hconn], ⟨_, rfl, hsid⟩⟩

/-- Witness for the amended C9 on the concrete connected transport. -/
theorem reconnect_logs_but_installs_fresh_session_w :
    connectedTransport0.is_connected = true ∧
    transport_connect connectedTransport0 = (connectedTransport0, ["is already connected"]) :=
  ⟨by decide, (reconnect_logs_but_installs_fresh_session connectedTransport0 1 (by decide)).1⟩

/-! ## Resource-id extraction and device sync (interface.py 27-44 and 160-210)

```python
def trailing_resource_id_from_response(response):
    if hasattr(response, "headers"):
        if "location" in response.headers:
            return int(response.headers["location"].split("/")[-1])
    raise ValueError("Response object has no location resource.")
```

The server is modelled as a function from requests to responses; a response
carries the status code, the optional `location` header, and whether its body
parses as an `EndDevice` document (`decodable`, consulted only by the GET).
Successive `POST /edev/{id}/der` calls hit the same path, so the request carries
the index of the DER in the device's list to let the server model answer them
individually. -/

structure RespM where
  status : Nat
  location : Option String
  decodable : Bool
deriving DecidableEq

/-- Python `str.split("/")`, over the character list. -/
def splitSlashAux : List Char → List Char → List (List Char)
  | [], acc => [acc.reverse]
  | c :: cs, acc =>
    if c = '/' then acc.reverse :: splitSlashAux cs []
    else splitSlashAux cs (c :: acc)

def trailing_resource_id_from_response (r : RespM) : Except String Nat :=
  match r.location with
  | some loc =>
    match parseNat (String.mk ((splitSlashAux loc.data []).getLastD [])) with
    | some n => Except.ok n
    | Option.none => Except.error "invalid literal for int() with base 10"
  | Option.none => Except.error "Response object has no location resource."

inductive ReqM where
  | postEndDevice
  | getEndDevice (edevId : Nat)
  | putDeviceInformation (edevId : Nat)
  | postDER (edevId idx : Nat)
  | putDERCapability (edevId derId : Nat)
  | putConnectionPoint (edevId : Nat)
deriving DecidableEq

inductive EvM where
  | request (r : ReqM)
  | warn (msg : String)
deriving DecidableEq

/-- `get_end_device` (interface.py 152-158), as used inside `sync_end_device`
(result discarded): a 200 response is decoded (raising if the body does not
parse); any other status logs a warning and returns `None`. -/
def getEndDeviceEvents (server : ReqM → RespM) (edevId : Nat) :
    List EvM × Except String Unit :=
  let r := server (.getEndDevice edevId)
  if r.status = 200 then
    if r.decodable then ([.request (.getEndDevice edevId)], Except.ok ())
    else ([.request (.getEndDevice edevId)], Except.error "from_xml failed to parse response")
  else ([.request (.getEndDevice edevId), .warn "No EndDevice found with edevID"], Except.ok ())

/-- The `for der in end_device.der` loop of `sync_end_device` (interface.py
199-207): POST each DER, log a warning when the status exceeds 201, then
**unconditionally** extract `der_id` from the response's location header (this
raises when the header is absent), and PUT the capability when present (that
response is never checked). -/
def syncDERs (server : ReqM → RespM) (edevId : Nat) :
    List DERM → Nat → List EvM × Except String Unit
  | [], _ => ([], Except.ok ())
  | der :: rest, idx =>
    let r := server (.postDER edevId idx)
    let evs1 := EvM.request (.postDER edevId idx) ::
      (if 201 < r.status then [EvM.warn "DER could not be created"] else [])
    match trailing_resource_id_from_response r with
    | Except.error e => (evs1, Except.error e)
    | Except.ok derId =>
      let evs2 := if der.der_capability.isSome then
          [EvM.request (.putDERCapability edevId derId)] else []
      let rec_result := syncDERs server edevId rest (idx + 1)
      (evs1 ++ evs2 ++ rec_result.1, rec_result.2)

/-- `sync_end_device` (interface.py 160-210): create the device if no id is
known (non-201 raises), GET it back, then, when `create_nested`, PUT device
information (response ignored; `None` device information crashes on
`.to_xml`), run the DER loop and finally PUT the connection point if present. -/
def sync_end_device (server : ReqM → RespM) (ed : EndDeviceM) (edevId? : Option Nat)
    (createNested : Bool) : List EvM × Except String Unit :=
  match (match edevId? with
         | some i => ([], Except.ok i)
         | Option.none =>
           let r := server .postEndDevice
           if r.status = 201 then
             match trailing_resource_id_from_response r with
             | Except.ok i => ([EvM.request .postEndDevice], Except.ok i)
             | Except.error e => ([EvM.request .postEndDevice], Except.error e)
           else
             ([EvM.request .postEndDevice],
              Except.error "Attempt to create EndDevice returned non-201")) with
  | (evs0, Except.error e) => (evs0, Except.error e)
  | (evs0, Except.ok edevId) =>
    let get_result := getEndDeviceEvents server edevId
    match get_result.2 with
    | Except.error e => (evs0 ++ get_result.1, Except.error e)
    | Except.ok _ =>
      if createNested then
        match ed.device_information with
        | Option.none =>
          (evs0 ++ get_result.1, Except.error "AttributeError: NoneType has no attribute to_xml")
        | some _ =>
          let evs2 := [EvM.request (.putDeviceInformation edevId)]
          match ed.der with
          | Option.none =>
            (evs0 ++ get_result.1 ++ evs2,
             Except.error "TypeError: NoneType object is not iterable")
          | some ders =>
            let der_result := syncDERs server edevId ders 0
            match der_result.2 with
            | Except.error e => (evs0 ++ get_result.1 ++ evs2 ++ der_result.1, Except.error e)
            | Except.ok _ =>
              let evs4 := if ed.connection_point.isSome then
                  [EvM.request (.putConnectionPoint edevId)] else []
              (evs0 ++ get_result.1 ++ evs2 ++ der_result.1 ++ evs4, Except.ok ())
      else (evs0 ++ get_result.1, Except.ok ())

/-- A server whose DER POST fails with status 400 and no location header. -/
def failServer : ReqM → RespM := fun r =>
  match r with
  | .getEndDevice _ => ⟨200, some "/edev/3", true⟩
  | .postDER _ _ => ⟨400, Option.none, false⟩
  | _ => ⟨500, Option.none, false⟩

/-- A device with device information, one DER and a connection point. -/
def nestedDevice : EndDeviceM :=
  ⟨65536, "0x222099d639e", some "366439602065", 0, 0, true, Option.none, Option.none,
   some [⟨Option.none⟩],
   some ⟨Option.none, Option.none, "0x222099d639e", 0, some "foo", Option.none, Option.none,
         Option.none, Option.none, some 0, some 0, some 0, some "NA"⟩,
   some ⟨Option.none, some "NMI000123"⟩⟩

/-- **C5 counterexample.** With a known `edev_id` and `create_nested`, a DER POST
that fails with no `location` header makes `sync_end_device` raise (the
`ValueError` from `trailing_resource_id_from_response`), and the remaining
nested request (the connection-point PUT) is never issued — the nested sync is
not best-effort in this case. -/
theorem sync_aborts_on_der_failure_without_location :
    (sync_end_device failServer nestedDevice (some 3) true).2 =
      Except.error "Response object has no location resource." ∧
    EvM.request (.putConnectionPoint 3) ∉ (sync_end_device failServer nestedDevice (some 3) true).1 ∧
    EvM.warn "DER could not be created" ∈ (sync_end_device failServer nestedDevice (some 3) true).1 := by
  refine ⟨by decide, by decide, by decide⟩

theorem syncDERs_all_locations_ok (server : ReqM → RespM) (edevId : Nat) :
    ∀ (ders : List DERM) (idx : Nat),
      (∀ i, i < ders.length →
        ∃ n, trailing_resource_id_from_response (server (.postDER edevId (idx + i))) =
          Except.ok n) →
      (syncDERs server edevId ders idx).2 = Except.ok () ∧
      (∀ i, i < ders.length →
        EvM.request (.postDER edevId (idx + i)) ∈ (syncDERs server edevId ders idx).1) ∧
      (∀ i, i < ders.length → 201 < (server (.postDER edevId (idx + i))).status →
        EvM.warn "DER could not be created" ∈ (syncDERs server edevId ders idx).1) := by
  intro ders
  induction ders with
  | nil =>
    intro idx _
    refine ⟨rfl, ?_, ?_⟩ <;> intro i hi <;> simp at hi
  | cons der rest ih =>
    intro idx hloc
    obtain ⟨n0, hn0⟩ := hloc 0 (by simp)
    rw [Nat.add_zero] at hn0
    have hrest : ∀ i, i < rest.length →
        ∃ n, trailing_resource_id_from_response (server (.postDER edevId (idx + 1 + i))) =
          Except.ok n := by
      intro i hi
      have := hloc (i + 1) (by simp; omega)
      rwa [show idx + (i + 1) = idx + 1 + i by omega] at this
    obtain ⟨ihok, ihmem, ihwarn⟩ := ih (idx + 1) hrest
    have hunfold : syncDERs server edevId (der :: rest) idx =
        ((EvM.request (.postDER edevId idx) ::
          (if 201 < (server (.postDER edevId idx)).status then
            [EvM.warn "DER could not be created"] else [])) ++
         (if der.der_capability.isSome then
            [EvM.request (.putDERCapability edevId n0)] else []) ++
         (syncDERs server edevId rest (idx + 1)).1,
         (syncDERs server edevId rest (idx + 1)).2) := by
      rw [syncDERs, hn0]
    refine ⟨?_, ?_, ?_⟩
    · rw [hunfold]; exact ihok
    · intro i hi
      cases i with
      | zero => rw [hunfold]; simp
      | succ i =>
        have hmem := ihmem i (by simp at hi; omega)
        rw [hunfold]
        rw [show idx + (i + 1) = idx + 1 + i by omega]
        simp only [List.mem_append]
        right
        exact hmem
    · intro i hi hstatus
      cases i with
      | zero =>
        rw [Nat.add_zero] at hstatus
        rw [hunfold]
        simp [hstatus]
      | succ i =>
        rw [show idx + (i + 1) = idx + 1 + i by omega] at hstatus
        have hmem := ihwarn i (by simp at hi; omega) hstatus
        rw [hunfold]
        simp only [List.mem_append]
        right
        exact hmem

/-- **C5 (amended).** With a known `edev_id` and `create_nested` requested,
device-information and DER-capability responses are never checked (their
failures are neither logged nor raised), a DER POST whose status exceeds 201 is
logged as a warning, and — **provided every DER POST response still carries a
parseable `location` header** — no nested failure raises and every remaining
nested request (device information PUT, each DER POST, capability PUT,
connection point PUT) is still issued; when a DER POST response lacks the
location header, `sync_end_device` instead raises `ValueError` from
`trailing_resource_id_from_response` and skips the remaining nested requests
(see the counterexample). -/
theorem sync_end_device_best_effort_given_locations (server : ReqM → RespM)
    (ed : EndDeviceM) (edevId : Nat) (di : DeviceInformationM) (ders : List DERM)
    (hdi : ed.device_information = some di)
    (hder : ed.der = some ders)
    (hget : (server (.getEndDevice edevId)).status = 200 →
      (server (.getEndDevice edevId)).decodable = true)
    (hloc : ∀ i, i < ders.length →
      ∃ n, trailing_resource_id_from_response (server (.postDER edevId i)) = Except.ok n) :
    (sync_end_device server ed (some edevId) true).2 = Except.ok () ∧
    EvM.request (.putDeviceInformation edevId) ∈ (sync_end_device server ed (some edevId) true).1 ∧
    (∀ i, i < ders.length →
      EvM.request (.postDER edevId i) ∈ (sync_end_device server ed (some edevId) true).1) ∧
    (ed.connection_point.isSome →
      EvM.request (.putConnectionPoint edevId) ∈ (sync_end_device server ed (some edevId) true).1) ∧
    (∀ i, i < ders.length → 201 < (server (.postDER edevId i)).status →
      EvM.warn "DER could not be created" ∈ (sync_end_device server ed (some edevId) true).1) := by
  obtain ⟨hdok, hdmem, hdwarn⟩ := syncDERs_all_locations_ok server edevId ders 0
    (by intro i hi; rw [Nat.zero_add]; exact hloc i hi)
  have hgetok : (getEndDeviceEvents server edevId).2 = Except.ok () := by
    rw [getEndDeviceEvents]
    by_cases h200 : (server (.getEndDevice edevId)).status = 200
    · simp [h200, hget h200]
    · simp [h200]
  have hunfold : sync_end_device server ed (some edevId) true =
      ([] ++ (getEndDeviceEvents server edevId).1 ++
        [EvM.request (.putDeviceInformation edevId)] ++
        (syncDERs server edevId ders 0).1 ++
        (if ed.connection_point.isSome then
          [EvM.request (.putConnectionPoint edevId)] else []),
       Except.ok ()) := by
    rw [sync_end_device, hgetok]
    simp only [if_pos trivial]
    rw [hdi, hder]
    simp [hdok]
  rw [hunfold]
  refine ⟨rfl, by simp, ?_, ?_, ?_⟩
  · intro i hi
    have := hdmem i hi
    rw [Nat.zero_add] at this
    simp only [List.mem_append]
    left; right
    exact this
  · intro hcp
    simp [hcp]
  · intro i hi hstatus
    have hstatus' : 201 < (server (.postDER edevId (0 + i))).status := by
      rwa [Nat.zero_add]
    have := hdwarn i hi hstatus'
    simp only [List.mem_append]
    left; right
    exact this

/-- A server that always supplies a usable location header. -/
def okServer : ReqM → RespM := fun r =>
  match r with
  | .getEndDevice _ => ⟨200, some "/edev/3", true⟩
  | .postDER _ _ => ⟨201, some "/edev/3/der/5", false⟩
  | _ => ⟨200, some "/mock/location/1", false⟩

/-- Witness for the amended C5: against `okServer`, the nested sync of
`nestedDevice` completes without raising. -/
theorem sync_end_device_best_effort_given_locations_w :
    nestedDevice.device_information.isSome = true ∧
    (sync_end_device okServer nestedDevice (some 3) true).2 = Except.ok () :=
  ⟨by decide,
   (sync_end_device_best_effort_given_locations okServer nestedDevice 3
      ⟨Option.none, Option.none, "0x222099d639e", 0, some "foo", Option.none, Option.none,
       Option.none, Option.none, some 0, some 0, some 0, some "NA"⟩
      [⟨Option.none⟩] (by decide) (by decide) (by decide)
      (fun i hi => by
        have hi0 : i = 0 := by simpa [Nat.lt_one_iff] using hi
        subst hi0
        exact ⟨5, by decide⟩)).1⟩

/-! ## The serialization engine (models.py 25-188)

`PyVal` is the universe of Python values that flow between pydantic's `.dict()`
output and `xmltodict`: `None`, strings, ints, bools, floats, lists and (ordered)
string-keyed dicts. -/

inductive PyVal where
  | none
  | str (s : String)
  | int (i : Int)
  | bool (b : Bool)
  | float (q : Rat)
  | list (vs : List PyVal)
  | dict (kvs : List (String × PyVal))

/-- A pydantic v1 `include`/`exclude` argument: either a flat set of field names
or a mapping from field names to nested filters. -/
inductive Filt where
  | set (names : List String)
  | dmap (entries : List (String × Filt))

def lookupFilt (entries : List (String × Filt)) (k : String) : Option Filt :=
  (entries.find? (fun kv => kv.1 == k)).map (fun kv => kv.2)

/-- pydantic v1 top-level include test: with no `include` every field is emitted;
with a set or mapping only the named fields are. -/
def inclTop (include? : Option Filt) (name : String) : Bool :=
  match include? with
  | Option.none => true
  | some (.set names) => name ∈ names
  | some (.dmap entries) => entries.any (fun kv => kv.1 == name)

/-- pydantic v1 top-level exclude test: only a flat set drops a field outright
(a mapping-shaped exclude filters nested content, which no caller in this
repository uses on scalar fields). -/
def exclTop (exclude? : Option Filt) (name : String) : Bool :=
  match exclude? with
  | Option.none => false
  | some (.set names) => name ∈ names
  | some (.dmap _) => false

def fieldEntry (include? exclude? : Option Filt) (byAlias : Bool)
    (name alias_ : String) (v : PyVal) : List (String × PyVal) :=
  if inclTop include? name && !exclTop exclude? name then
    [((if byAlias then alias_ else name), v)]
  else []

def pyOptStr : Option String → PyVal
  | some s => .str s
  | Option.none => .none

def pyOptInt : Option Int → PyVal
  | some i => .int i
  | Option.none => .none

/-- `Link` (alias `@href`). -/
def encodeLink (byAlias : Bool) (l : LinkM) : PyVal :=
  .dict [((if byAlias then "@href" else "href"), pyOptStr l.href)]

/-- `ValueWithMultiplier` (no aliases declared). -/
def encodeVWM (v : ValueWithMultiplierM) : PyVal :=
  .dict [("multipler", .int v.multipler), ("value", .int v.value)]

def pyOptVWM : Option ValueWithMultiplierM → PyVal
  | some v => encodeVWM v
  | Option.none => .none

def encodeDERCap (byAlias : Bool) (c : DERCapabilityM) : PyVal :=
  .dict [((if byAlias then "modesSupported" else "modes_supported"), .int c.modes_supported),
         ((if byAlias then "rtgMaxA" else "rtg_max_a"), pyOptVWM c.rtg_max_a),
         ((if byAlias then "rtgMaxAh" else "rtg_max_ah"), pyOptVWM c.rtg_max_ah),
         ((if byAlias then "rtgMaxW" else "rtg_max_w"), pyOptVWM c.rtg_max_w),
         ((if byAlias then "rtgMaxChargeRateVA" else "rtg_max_charge_rate_va"), pyOptVWM c.rtg_max_charge_rate_va),
         ((if byAlias then "rtgMaxChargeRateW" else "rtg_max_charge_rate_w"), pyOptVWM c.rtg_max_charge_rate_w),
         ((if byAlias then "rtgMaxDischargeRateVA" else "rtg_max_discharge_rate_va"), pyOptVWM c.rtg_max_discharge_rate_va),
         ((if byAlias then "rtgMaxDischargeRateW" else "rtg_max_discharge_rate_w"), pyOptVWM c.rtg_max_discharge_rate_w),
         ((if byAlias then "type" else "type_"), .int c.type_)]

def encodeDER (byAlias : Bool) (d : DERM) : PyVal :=
  .dict [((if byAlias then "DERCapability" else "der_capability"),
          match d.der_capability with
          | some c => encodeDERCap byAlias c
          | Option.none => .none)]

def encodeGPS (g : GPSLocationTypeM) : PyVal :=
  .dict [("lat", .float g.lat), ("lon", .float g.lon)]

def encodeDI (byAlias : Bool) (di : DeviceInformationM) : PyVal :=
  .dict [((if byAlias then "functionsImplemented" else "functions_implemented"), pyOptInt di.functions_implemented),
         ((if byAlias then "gpsLocation" else "gps_location"),
          match di.gps_location with
          | some g => encodeGPS g
          | Option.none => .none),
         ((if byAlias then "lFDI" else "lfdi"), .str di.lfdi),
         ((if byAlias then "mfDate" else "mf_date"), .int di.mf_date),
         ((if byAlias then "mfHwVer" else "mf_hw_ver"), pyOptStr di.mf_hw_ver),
         ((if byAlias then "mfID" else "mf_id"), pyOptInt di.mf_id),
         ((if byAlias then "mfInfo" else "mf_info"), pyOptStr di.mf_info),
         ((if byAlias then "mfModel" else "mf_model"), pyOptStr di.mf_model),
         ((if byAlias then "mfSerNum" else "mf_ser_num"), pyOptStr di.mf_ser_num),
         ((if byAlias then "primaryPower" else "primary_power"), pyOptInt di.primary_power),
         ((if byAlias then "secondaryPower" else "secondary_power"), pyOptInt di.secondary_power),
         ((if byAlias then "swActTime" else "sw_act_time"), pyOptInt di.sw_act_time),
         ((if byAlias then "swVer" else "sw_ver"), pyOptStr di.sw_ver)]

def encodeCP (byAlias : Bool) (cp : ConnectionPointM) : PyVal :=
  .dict [((if byAlias then "connectionPointID" else "connection_point_id"), pyOptStr cp.connection_point_id),
         ((if byAlias then "meterID" else "meter_id"), pyOptStr cp.meter_id)]

/-- pydantic v1 `.dict()` on an `EndDevice`, with `include`/`exclude` filtering
at the top level.  Nested models recurse through pydantic's own serialization
with the same `by_alias`; nested sub-filters are not forwarded because no caller
in this repository applies one to an existing field (the templates use flat
include sets, and the list-wrapper path passes mappings whose only key,
`end_device`, matches no `EndDevice` field). -/
def encodeEndDevice (ed : EndDeviceM) (include? exclude? : Option Filt)
    (byAlias : Bool) : PyVal :=
  .dict
    (fieldEntry include? exclude? byAlias "device_category" "deviceCategory" (.int ed.device_category) ++
     fieldEntry include? exclude? byAlias "lfdi" "lFDI" (.str ed.lfdi) ++
     fieldEntry include? exclude? byAlias "sfdi" "sFDI" (pyOptStr ed.sfdi) ++
     fieldEntry include? exclude? byAlias "changed_time" "changedTime" (.int ed.changed_time) ++
     fieldEntry include? exclude? byAlias "post_rate" "postRate" (.int ed.post_rate) ++
     fieldEntry include? exclude? byAlias "enabled" "enabled" (.bool ed.enabled) ++
     fieldEntry include? exclude? byAlias "der_list_link" "DERListLink"
       (match ed.der_list_link with
        | some l => encodeLink byAlias l
        | Option.none => .none) ++
     fieldEntry include? exclude? byAlias "device_information_link" "DeviceInformationLink"
       (match ed.device_information_link with
        | some l => encodeLink byAlias l
        | Option.none => .none) ++
     fieldEntry include? exclude? byAlias "der" "DER"
       (match ed.der with
        | some ds => .list (ds.map (encodeDER byAlias))
        | Option.none => .none) ++
     fieldEntry include? exclude? byAlias "device_information" "deviceInformation"
       (match ed.device_information with
        | some di => encodeDI byAlias di
        | Option.none => .none) ++
     fieldEntry include? exclude? byAlias "connection_point" "connectionPoint"
       (match ed.connection_point with
        | some cp => encodeCP byAlias cp
        | Option.none => .none))

/-- The three `EndDevice.XmlTemplate` modes (models.py 412-424); all set
`by_alias=True` and an include set.  Note the `link` template names
`DeviceInformationLink` — the field's alias, not its name — which pydantic's
include matching silently ignores. -/
inductive Mode where
  | create
  | link
  | show
deriving DecidableEq

def endDeviceModeInclude : Mode → Option Filt
  | .create => some (.set ["device_category", "lfdi", "sfdi", "changed_time", "post_rate", "enabled"])
  | .link => some (.set ["device_category", "lfdi", "sfdi", "der_list_link", "DeviceInformationLink"])
  | .show => some (.set ["device_category", "lfdi", "sfdi", "der", "device_information"])

/-- `EndDevice.xml_dict(mode=m)`: the encoded mapping wrapped under the class
name (models.py 68-80). -/
def endDevice_xml_dict (ed : EndDeviceM) (m : Mode) : PyVal :=
  .dict [("EndDevice", encodeEndDevice ed (endDeviceModeInclude m) Option.none true)]

/-! ### The XML wire: `xmltodict.parse ∘ xmltodict.unparse`

`to_xml` serializes the nested mapping to an XML fragment and `from_xml` parses
it back (models.py 82-105).  The composite of xmltodict's `unparse` and `parse`
acts on the mapping as follows: scalar leaves are rendered with Python `str` and
come back as strings (element text is whitespace-stripped, and an empty text
yields `None`); `None` becomes an empty element and parses back to `None`;
a key holding a list is emitted once per element, so an empty list vanishes,
a one-element list collapses to its single element, and longer lists survive;
keys starting with `@` are attributes, whose values are rendered verbatim with
`str` (no stripping, `None` becomes the string `"None"`); an element with no
remaining children parses to `None`. -/

def isSpaceChar (c : Char) : Bool := c == ' ' || c == '\t' || c == '\n' || c == '\r'

def trimChars (cs : List Char) : List Char :=
  ((cs.dropWhile isSpaceChar).reverse.dropWhile isSpaceChar).reverse

def isAttrKey (k : String) : Bool :=
  match k.data with
  | '@' :: _ => true
  | _ => false

/-- Placeholder rendering of a Python float: floats are outside the scope of the
claims and no theorem exercises this branch. -/
def floatStr (q : Rat) : String := intStr q.num ++ "/" ++ natStr q.den

/-- Python `str` of a scalar, as xmltodict applies it to attribute values and
element text. -/
def pyStr : PyVal → String
  | .str s => s
  | .int i => intStr i
  | .bool b => if b then "True" else "False"
  | .float q => floatStr q
  | .none => "None"
  | .list _ => ""
  | .dict _ => ""

/-- The `parse ∘ unparse` round trip on the mapping, fuel-bounded by nesting
depth (8 covers every document this data model produces). -/
def rtVal : Nat → PyVal → PyVal
  | 0, v => v
  | fuel + 1, v =>
    match v with
    | .none => .none
    | .str s =>
      let t := trimChars s.data
      if t.isEmpty then .none else .str (String.mk t)
    | .int i => .str (intStr i)
    | .bool b => .str (if b then "True" else "False")
    | .float q => .str (floatStr q)
    | .list vs => .list (vs.map (rtVal fuel))
    | .dict kvs =>
      let entries := kvs.foldr (fun kv acc =>
        if isAttrKey kv.1 then (kv.1, PyVal.str (pyStr kv.2)) :: acc
        else
          match kv.2 with
          | .list [] => acc
          | .list [x] => (kv.1, rtVal fuel x) :: acc
          | .list xs => (kv.1, PyVal.list (xs.map (rtVal fuel))) :: acc
          | w => (kv.1, rtVal fuel w) :: acc) []
      if entries.isEmpty then .none else .dict entries

def xmltodictRT (v : PyVal) : PyVal := rtVal 8 v

/-! ### Decoding (`from_xml` + pydantic v1 construction from a parsed mapping)

pydantic populates each field from the parsed mapping by its wire alias, falling
back to the field's own name (`allow_population_by_field_name = True`); missing
fields take their declared defaults, required missing fields fail; string values
are coerced per the target type (pydantic v1 validators); the set of keys that
were actually present becomes `__fields_set__`. -/

def lookupPy (kvs : List (String × PyVal)) (k : String) : Option PyVal :=
  (kvs.find? (fun kv => kv.1 == k)).map (fun kv => kv.2)

def getField (kvs : List (String × PyVal)) (alias_ name : String) : Option PyVal :=
  match lookupPy kvs alias_ with
  | some v => some v
  | Option.none => lookupPy kvs name

/-- pydantic v1 `str` coercion: strings pass through; numbers and bools are
rendered with Python `str`. -/
def coerceStr : PyVal → Except String String
  | .str s => Except.ok s
  | .int i => Except.ok (intStr i)
  | .bool b => Except.ok (if b then "True" else "False")
  | .float q => Except.ok (floatStr q)
  | _ => Except.error "str type expected"

/-- pydantic v1 `int` coercion. -/
def coerceInt : PyVal → Except String Int
  | .int i => Except.ok i
  | .bool b => Except.ok (if b then 1 else 0)
  | .float q => Except.ok (q.num / (q.den : Int))
  | .str s =>
    match parseInt s with
    | some i => Except.ok i
    | Option.none => Except.error "value is not a valid integer"
  | _ => Except.error "value is not a valid integer"

def lowerChar (c : Char) : Char :=
  if 65 ≤ c.toNat ∧ c.toNat ≤ 90 then Char.ofNat (c.toNat + 32) else c

def lowerStr (s : String) : String := String.mk (s.data.map lowerChar)

/-- pydantic v1 `bool` coercion (`bool_validator` / `str_to_bool`). -/
def coerceBool : PyVal → Except String Bool
  | .bool b => Except.ok b
  | .int i =>
    if i = 0 then Except.ok false
    else if i = 1 then Except.ok true
    else Except.error "value could not be parsed to a boolean"
  | .str s =>
    let t := lowerStr s
    if t ∈ ["1", "on", "t", "true", "y", "yes"] then Except.ok true
    else if t ∈ ["0", "off", "f", "false", "n", "no"] then Except.ok false
    else Except.error "value could not be parsed to a boolean"
  | _ => Except.error "value could not be parsed to a boolean"

def splitOnDot : List Char → List Char → List Char × Option (List Char)
  | [], acc => (acc.reverse, Option.none)
  | '.' :: rest, acc => (acc.reverse, some rest)
  | c :: rest, acc => splitOnDot rest (c :: acc)

/-- Python `float(s)` on plain decimal notation (never exercised by a theorem;
GPS coordinates are the only float fields). -/
def parseRat (s : String) : Option Rat :=
  let core : List Char → Option Rat := fun cs =>
    match splitOnDot cs [] with
    | (ip, Option.none) =>
      if ip.isEmpty then Option.none
      else (parseNatDigits ip 0).map (fun n => (n : Rat))
    | (ip, some fp) =>
      match parseNatDigits ip 0, parseNatDigits fp 0 with
      | some n, some f => some ((n : Rat) + (f : Rat) / ((10 : Rat) ^ fp.length))
      | _, _ => Option.none
  match s.data with
  | '-' :: cs => (core cs).map Neg.neg
  | cs => core cs

def coerceRat : PyVal → Except String Rat
  | .float q => Except.ok q
  | .int i => Except.ok (i : Rat)
  | .bool b => Except.ok (if b then 1 else 0)
  | .str s =>
    match parseRat s with
    | some q => Except.ok q
    | Option.none => Except.error "value is not a valid float"
  | _ => Except.error "value is not a valid float"

/-- A required field: missing input is a validation error. -/
def reqField {β : Type} (kvs : List (String × PyVal)) (alias_ name : String)
    (f : PyVal → Except String β) : Except String β :=
  match getField kvs alias_ name with
  | some v => f v
  | Option.none => Except.error "field required"

/-- A non-optional field with a declared default. -/
def defField {β : Type} (kvs : List (String × PyVal)) (alias_ name : String)
    (dflt : β) (f : PyVal → Except String β) : Except String β :=
  match getField kvs alias_ name with
  | some v => f v
  | Option.none => Except.ok dflt

/-- An `Optional[...]` field with default `None`. -/
def optField {β : Type} (kvs : List (String × PyVal)) (alias_ name : String)
    (f : PyVal → Except String β) : Except String (Option β) :=
  match getField kvs alias_ name with
  | Option.none => Except.ok Option.none
  | some .none => Except.ok Option.none
  | some v => (f v).map some

/-- An `Optional[...]` field with a non-`None` declared default. -/
def optDefField {β : Type} (kvs : List (String × PyVal)) (alias_ name : String)
    (dflt : β) (f : PyVal → Except String β) : Except String (Option β) :=
  match getField kvs alias_ name with
  | Option.none => Except.ok (some dflt)
  | some .none => Except.ok Option.none
  | some v => (f v).map some

def enumInt (values : List Int) (v : PyVal) : Except String Int := do
  let i ← coerceInt v
  if values.contains i then pure i
  else Except.error "value is not a valid enumeration member"

def decodeLink : PyVal → Except String LinkM
  | .dict kvs =>
    (optField kvs "@href" "href" coerceStr).map (fun h => ⟨h⟩)
  | _ => Except.error "value is not a valid dict"

def decodeVWM : PyVal → Except String ValueWithMultiplierM
  | .dict kvs => do
    let m ← defField kvs "multipler" "multipler" 0 coerceInt
    let v ← reqField kvs "value" "value" coerceInt
    pure ⟨m, v⟩
  | _ => Except.error "value is not a valid dict"

def decodeDERCap : PyVal → Except String DERCapabilityM
  | .dict kvs => do
    let ms ← defField kvs "modesSupported" "modes_supported" 1 coerceInt
    let a ← optField kvs "rtgMaxA" "rtg_max_a" decodeVWM
    let ah ← optField kvs "rtgMaxAh" "rtg_max_ah" decodeVWM
    let w ← optField kvs "rtgMaxW" "rtg_max_w" decodeVWM
    let cva ← optField kvs "rtgMaxChargeRateVA" "rtg_max_charge_rate_va" decodeVWM
    let cw ← optField kvs "rtgMaxChargeRateW" "rtg_max_charge_rate_w" decodeVWM
    let dva ← optField kvs "rtgMaxDischargeRateVA" "rtg_max_discharge_rate_va" decodeVWM
    let dw ← optField kvs "rtgMaxDischargeRateW" "rtg_max_discharge_rate_w" decodeVWM
    let t ← reqField kvs "type" "type_" (enumInt derTypeValues)
    pure ⟨ms, a, ah, w, cva, cw, dva, dw, t⟩
  | _ => Except.error "value is not a valid dict"

def decodeDER : PyVal → Except String DERM
  | .dict kvs =>
    (optField kvs "DERCapability" "der_capability" decodeDERCap).map (fun c => ⟨c⟩)
  | _ => Except.error "value is not a valid dict"

def decodeGPS : PyVal → Except String GPSLocationTypeM
  | .dict kvs => do
    let lat ← reqField kvs "lat" "lat" coerceRat
    let lon ← reqField kvs "lon" "lon" coerceRat
    pure ⟨lat, lon⟩
  | _ => Except.error "value is not a valid dict"

def decodeDI : PyVal → Except String DeviceInformationM
  | .dict kvs => do
    let fi ← optField kvs "functionsImplemented" "functions_implemented"
      (enumInt functionsImplementedValues)
    let gps ← optField kvs "gpsLocation" "gps_location" decodeGPS
    let lfdi ← reqField kvs "lFDI" "lfdi" coerceStr
    let mfDate ← defField kvs "mfDate" "mf_date" 0 coerceInt
    let mfHwVer ← optDefField kvs "mfHwVer" "mf_hw_ver" "foo" coerceStr
    let mfId ← optField kvs "mfID" "mf_id" coerceInt
    let mfInfo ← optField kvs "mfInfo" "mf_info" coerceStr
    let mfModel ← optField kvs "mfModel" "mf_model" coerceStr
    let mfSerNum ← optField kvs "mfSerNum" "mf_ser_num" coerceStr
    let pp ← optDefField kvs "primaryPower" "primary_power" 0 (enumInt powerSourceValues)
    let sp ← optDefField kvs "secondaryPower" "secondary_power" 0 (enumInt powerSourceValues)
    let swAct ← optDefField kvs "swActTime" "sw_act_time" 0 coerceInt
    let swVer ← optDefField kvs "swVer" "sw_ver" "NA" coerceStr
    pure ⟨fi, gps, lfdi, mfDate, mfHwVer, mfId, mfInfo, mfModel, mfSerNum, pp, sp, swAct, swVer⟩
  | _ => Except.error "value is not a valid dict"

def decodeCP : PyVal → Except String ConnectionPointM
  | .dict kvs => do
    let cpid ← optField kvs "connectionPointID" "connection_point_id" coerceStr
    let mid ← optField kvs "meterID" "meter_id" coerceStr
    pure ⟨cpid, mid⟩
  | _ => Except.error "value is not a valid dict"

/-- The keys present in the parsed mapping, as field names (`__fields_set__`). -/
def endDeviceFieldsSet (kvs : List (String × PyVal)) : List String :=
  (if (getField kvs "deviceCategory" "device_category").isSome then ["device_category"] else []) ++
  (if (getField kvs "lFDI" "lfdi").isSome then ["lfdi"] else []) ++
  (if (getField kvs "sFDI" "sfdi").isSome then ["sfdi"] else []) ++
  (if (getField kvs "changedTime" "changed_time").isSome then ["changed_time"] else []) ++
  (if (getField kvs "postRate" "post_rate").isSome then ["post_rate"] else []) ++
  (if (getField kvs "enabled" "enabled").isSome then ["enabled"] else []) ++
  (if (getField kvs "DERListLink" "der_list_link").isSome then ["der_list_link"] else []) ++
  (if (getField kvs "DeviceInformationLink" "device_information_link").isSome then ["device_information_link"] else []) ++
  (if (getField kvs "DER" "der").isSome then ["der"] else []) ++
  (if (getField kvs "deviceInformation" "device_information").isSome then ["device_information"] else []) ++
  (if (getField kvs "connectionPoint" "connection_point").isSome then ["connection_point"] else [])

/-- `EndDevice(**kvs)`: field-by-field validation in declaration order, then the
`sfdi` validator (which sees the already-validated `lfdi`). -/
def decodeEndDevice (kvs : List (String × PyVal)) :
    Except String (EndDeviceM × List String) := do
  let dc ← reqField kvs "deviceCategory" "device_category" (enumInt deviceCategoryValues)
  let lfdi ← reqField kvs "lFDI" "lfdi" coerceStr
  let sfdi0 ← optField kvs "sFDI" "sfdi" coerceStr
  let ct ← defField kvs "changedTime" "changed_time" 0 coerceInt
  let pr ← defField kvs "postRate" "post_rate" 0 coerceInt
  let en ← defField kvs "enabled" "enabled" true coerceBool
  let dll ← optField kvs "DERListLink" "der_list_link" decodeLink
  let dil ← optField kvs "DeviceInformationLink" "device_information_link" decodeLink
  let der ← optField kvs "DER" "der" (fun v =>
    match v with
    | .list vs => vs.mapM decodeDER
    | _ => Except.error "value is not a valid list")
  let di ← optField kvs "deviceInformation" "device_information" decodeDI
  let cp ← optField kvs "connectionPoint" "connection_point" decodeCP
  let sfdi ← sfdiValidator lfdi sfdi0
  pure (⟨dc, lfdi, sfdi, ct, pr, en, dll, dil, der, di, cp⟩, endDeviceFieldsSet kvs)

/-- `EndDevice.from_xml(document)` (models.py 82-92): parse, pick the child
keyed by the class name, construct. -/
def endDevice_from_xml (doc : PyVal) : Except String (EndDeviceM × List String) :=
  match doc with
  | .dict kvs =>
    match lookupPy kvs "EndDevice" with
    | some (.dict inner) => decodeEndDevice inner
    | some _ => Except.error "value is not a valid dict"
    | Option.none => Except.error "KeyError: EndDevice"
  | _ => Except.error "KeyError: EndDevice"

/-- Typed constructor arguments for `EndDevice(...)`. -/
structure EndDeviceArgs where
  device_category : Int
  lfdi : String
  sfdi : Option String
  changed_time : Int
  post_rate : Int
  enabled : Bool
  der_list_link : Option LinkM
  device_information_link : Option LinkM
  der : Option (List DERM)
  device_information : Option DeviceInformationM
  connection_point : Option ConnectionPointM

/-- Constructing an `EndDevice` from typed values: the enum-typed field is
validated for membership (then stored as its integer value, per
`use_enum_values`), and the `sfdi` validator runs. -/
def mkEndDevice (a : EndDeviceArgs) : Except String EndDeviceM :=
  if deviceCategoryValues.contains a.device_category then
    (sfdiValidator a.lfdi a.sfdi).map (fun sfdi =>
      ⟨a.device_category, a.lfdi, sfdi, a.changed_time, a.post_rate, a.enabled,
       a.der_list_link, a.device_information_link, a.der, a.device_information,
       a.connection_point⟩)
  else Except.error "value is not a valid enumeration member"

/-- `decode_document(encode_document(ed, mode))`. -/
def endDevice_roundtrip (ed : EndDeviceM) (m : Mode) :
    Except String (EndDeviceM × List String) :=
  endDevice_from_xml (xmltodictRT (endDevice_xml_dict ed m))

theorem string_eq_empty_of_data_nil {s : String} (h : s.data = []) : s = "" := by
  cases s with
  | mk data => cases h; rfl

theorem rtVal_str_trimmed (fuel : Nat) (s : String)
    (ht : trimChars s.data = s.data) (h0 : s ≠ "") :
    rtVal (fuel + 1) (.str s) = .str s := by
  have hne : s.data.isEmpty = false := by
    cases hd : s.data with
    | nil => exact absurd (string_eq_empty_of_data_nil hd) h0
    | cons c cs => rfl
  simp only [rtVal, ht, hne, Bool.false_eq_true, if_false]

theorem coerceInt_intStr (i : Int) : coerceInt (.str (intStr i)) = Except.ok i := by
  simp [coerceInt, parseInt_intStr]

theorem coerceBool_pybool (b : Bool) :
    coerceBool (.str (if b then "True" else "False")) = Except.ok b := by
  cases b <;> rfl

theorem except_bind_ok {ε α β : Type} (a : α) (f : α → Except ε β) :
    (Except.ok a >>= f : Except ε β) = f a := rfl

theorem except_bind_error {ε α β : Type} (e : ε) (f : α → Except ε β) :
    (Except.error e >>= f : Except ε β) = Except.error e := rfl

theorem except_pure {ε α : Type} (a : α) : (pure a : Except ε α) = Except.ok a := rfl

theorem mkEndDevice_ok_elim (a : EndDeviceArgs) (ed : EndDeviceM)
    (h : mkEndDevice a = Except.ok ed) :
    deviceCategoryValues.contains a.device_category = true ∧
    sfdiValidator a.lfdi a.sfdi = Except.ok ed.sfdi ∧
    ed = ⟨a.device_category, a.lfdi, ed.sfdi, a.changed_time, a.post_rate, a.enabled,
      a.der_list_link, a.device_information_link, a.der, a.device_information,
      a.connection_point⟩ := by
  rw [mkEndDevice] at h
  by_cases hc : deviceCategoryValues.contains a.device_category = true
  · rw [if_pos hc] at h
    cases hv : sfdiValidator a.lfdi a.sfdi with
    | error e => rw [hv] at h; exact absurd h (by simp [Except.map])
    | ok sf =>
      rw [hv] at h
      simp only [Except.map, Except.ok.injEq] at h
      subst h
      exact ⟨hc, rfl, rfl⟩
  · rw [if_neg hc] at h; exact absurd h (by simp)

theorem roundtrip_create_aux (dc : Int) (lfdi : String) (sf : Option String)
    (ct pr : Int) (en : Bool) (dll dil : Option LinkM) (der : Option (List DERM))
    (di : Option DeviceInformationM) (cp : Option ConnectionPointM)
    (hdc : deviceCategoryValues.contains dc = true)
    (hlfdi : trimChars lfdi.data = lfdi.data) (hlfdi0 : lfdi ≠ "")
    (hsf : ∀ s, sf = some s → trimChars s.data = s.data ∧ s ≠ "")
    (hidem : sfdiValidator lfdi sf = Except.ok sf) :
    endDevice_roundtrip ⟨dc, lfdi, sf, ct, pr, en, dll, dil, der, di, cp⟩ .create =
      Except.ok (⟨dc, lfdi, sf, ct, pr, en, Option.none, Option.none, Option.none,
        Option.none, Option.none⟩,
        ["device_category", "lfdi", "sfdi", "changed_time", "post_rate", "enabled"]) := by
  have hLf : rtVal 6 (PyVal.str lfdi) = PyVal.str lfdi := rtVal_str_trimmed 5 lfdi hlfdi hlfdi0
  have hmem : dc ∈ deviceCategoryValues := by simpa using hdc
  cases sf with
  | none =>
    have hrt : xmltodictRT (endDevice_xml_dict
        ⟨dc, lfdi, Option.none, ct, pr, en, dll, dil, der, di, cp⟩ .create) =
        PyVal.dict [("EndDevice", PyVal.dict
          [("deviceCategory", PyVal.str (intStr dc)),
           ("lFDI", rtVal 6 (PyVal.str lfdi)),
           ("sFDI", PyVal.none),
           ("changedTime", PyVal.str (intStr ct)),
           ("postRate", PyVal.str (intStr pr)),
           ("enabled", PyVal.str (if en then "True" else "False"))])] := rfl
    rw [endDevice_roundtrip, hrt, hLf]
    simp [endDevice_from_xml, decodeEndDevice, reqField, defField, optField, getField,
      lookupPy, enumInt, endDeviceFieldsSet, except_bind_ok, except_bind_error,
      except_pure, coerceInt_intStr, coerceStr, coerceBool_pybool, hmem, hidem, Except.map]
  | some s =>
    obtain ⟨hst, hs0⟩ := hsf s rfl
    have hSf : rtVal 6 (PyVal.str s) = PyVal.str s := rtVal_str_trimmed 5 s hst hs0
    have hrt : xmltodictRT (endDevice_xml_dict
        ⟨dc, lfdi, some s, ct, pr, en, dll, dil, der, di, cp⟩ .create) =
        PyVal.dict [("EndDevice", PyVal.dict
          [("deviceCategory", PyVal.str (intStr dc)),
           ("lFDI", rtVal 6 (PyVal.str lfdi)),
           ("sFDI", rtVal 6 (PyVal.str s)),
           ("changedTime", PyVal.str (intStr ct)),
           ("postRate", PyVal.str (intStr pr)),
           ("enabled", PyVal.str (if en then "True" else "False"))])] := rfl
    rw [endDevice_roundtrip, hrt, hLf, hSf]
    simp [endDevice_from_xml, decodeEndDevice, reqField, defField, optField, getField,
      lookupPy, enumInt, endDeviceFieldsSet, except_bind_ok, except_bind_error,
      except_pure, coerceInt_intStr, coerceStr, coerceBool_pybool, hmem, hidem, Except.map]

theorem roundtrip_link_aux (dc : Int) (lfdi : String) (sf : Option String)
    (ct pr : Int) (en : Bool) (dll dil : Option LinkM) (der : Option (List DERM))
    (di : Option DeviceInformationM) (cp : Option ConnectionPointM)
    (hdc : deviceCategoryValues.contains dc = true)
    (hlfdi : trimChars lfdi.data = lfdi.data) (hlfdi0 : lfdi ≠ "")
    (hsf : ∀ s, sf = some s → trimChars s.data = s.data ∧ s ≠ "")
    (hhref : ∀ l, dll = some l → l.href ≠ Option.none)
    (hidem : sfdiValidator lfdi sf = Except.ok sf) :
    endDevice_roundtrip ⟨dc, lfdi, sf, ct, pr, en, dll, dil, der, di, cp⟩ .link =
      Except.ok (⟨dc, lfdi, sf, 0, 0, true, dll, Option.none, Option.none,
        Option.none, Option.none⟩,
        ["device_category", "lfdi", "sfdi", "der_list_link"]) := by
  have hLf : rtVal 6 (PyVal.str lfdi) = PyVal.str lfdi := rtVal_str_trimmed 5 lfdi hlfdi hlfdi0
  have hmem : dc ∈ deviceCategoryValues := by simpa using hdc
  cases sf with
  | none =>
    cases dll with
    | none =>
      have hrt : xmltodictRT (endDevice_xml_dict
          ⟨dc, lfdi, Option.none, ct, pr, en, Option.none, dil, der, di, cp⟩ .link) =
          PyVal.dict [("EndDevice", PyVal.dict
            [("deviceCategory", PyVal.str (intStr dc)),
             ("lFDI", rtVal 6 (PyVal.str lfdi)),
             ("sFDI", PyVal.none),
             ("DERListLink", PyVal.none)])] := rfl
      rw [endDevice_roundtrip, hrt, hLf]
      simp [endDevice_from_xml, decodeEndDevice, reqField, defField, optField, getField,
        lookupPy, enumInt, endDeviceFieldsSet, except_bind_ok, except_bind_error,
        except_pure, coerceInt_intStr, coerceStr, coerceBool_pybool, hmem, hidem, Except.map]
    | some l =>
      obtain ⟨h, hh⟩ : ∃ h, l.href = some h := by
        cases hl : l.href with
        | none => exact absurd hl (hhref l rfl)
        | some h => exact ⟨h, rfl⟩
      obtain ⟨href⟩ := l
      cases hh
      have hrt : xmltodictRT (endDevice_xml_dict
          ⟨dc, lfdi, Option.none, ct, pr, en, some ⟨some h⟩, dil, der, di, cp⟩ .link) =
          PyVal.dict [("EndDevice", PyVal.dict
            [("deviceCategory", PyVal.str (intStr dc)),
             ("lFDI", rtVal 6 (PyVal.str lfdi)),
             ("sFDI", PyVal.none),
             ("DERListLink", PyVal.dict [("@href", PyVal.str h)])])] := rfl
      rw [endDevice_roundtrip, hrt, hLf]
      simp [endDevice_from_xml, decodeEndDevice, reqField, defField, optField, getField,
        lookupPy, enumInt, endDeviceFieldsSet, except_bind_ok, except_bind_error,
        except_pure, coerceInt_intStr, coerceStr, coerceBool_pybool, hmem, hidem, Except.map,
        decodeLink]
  | some s =>
    obtain ⟨hst, hs0⟩ := hsf s rfl
    have hSf : rtVal 6 (PyVal.str s) = PyVal.str s := rtVal_str_trimmed 5 s hst hs0
    cases dll with
    | none =>
      have hrt : xmltodictRT (endDevice_xml_dict
          ⟨dc, lfdi, some s, ct, pr, en, Option.none, dil, der, di, cp⟩ .link) =
          PyVal.dict [("EndDevice", PyVal.dict
            [("deviceCategory", PyVal.str (intStr dc)),
             ("lFDI", rtVal 6 (PyVal.str lfdi)),
             ("sFDI", rtVal 6 (PyVal.str s)),
             ("DERListLink", PyVal.none)])] := rfl
      rw [endDevice_roundtrip, hrt, hLf, hSf]
      simp [endDevice_from_xml, decodeEndDevice, reqField, defField, optField, getField,
        lookupPy, enumInt, endDeviceFieldsSet, except_bind_ok, except_bind_error,
        except_pure, coerceInt_intStr, coerceStr, coerceBool_pybool, hmem, hidem, Except.map]
    | some l =>
      obtain ⟨h, hh⟩ : ∃ h, l.href = some h := by
        cases hl : l.href with
        | none => exact absurd hl (hhref l rfl)
        | some h => exact ⟨h, rfl⟩
      obtain ⟨href⟩ := l
      cases hh
      have hrt : xmltodictRT (endDevice_xml_dict
          ⟨dc, lfdi, some s, ct, pr, en, some ⟨some h⟩, dil, der, di, cp⟩ .link) =
          PyVal.dict [("EndDevice", PyVal.dict
            [("deviceCategory", PyVal.str (intStr dc)),
             ("lFDI", rtVal 6 (PyVal.str lfdi)),
             ("sFDI", rtVal 6 (PyVal.str s)),
             ("DERListLink", PyVal.dict [("@href", PyVal.str h)])])] := rfl
      rw [endDevice_roundtrip, hrt, hLf, hSf]
      simp [endDevice_from_xml, decodeEndDevice, reqField, defField, optField, getField,
        lookupPy, enumInt, endDeviceFieldsSet, except_bind_ok, except_bind_error,
        except_pure, coerceInt_intStr, coerceStr, coerceBool_pybool, hmem, hidem, Except.map,
        decodeLink]

/-- **C2 (amended).** For every valid `EndDevice` (constructed through the
validators, with whitespace-free, non-empty lfdi and sfdi strings, and an actual
`href` inside any present `DERListLink`): under the `create` and `link` modes,
decoding the document produced by encoding yields an object whose mode-included
fields all equal the original's, and whose excluded fields are unset — they
carry their declared defaults and are absent from the decoded fields-set.  The
`show` mode, whose include set contains the list-valued `der` field, does not
round-trip in general: with exactly one DER the singleton list collapses in the
XML and decoding fails (see the counterexample). -/
theorem endDevice_roundtrip_create_and_link (a : EndDeviceArgs) (ed : EndDeviceM)
    (hmk : mkEndDevice a = Except.ok ed)
    (hlfdi : trimChars ed.lfdi.data = ed.lfdi.data) (hlfdi0 : ed.lfdi ≠ "")
    (hsfdi : ∀ s, ed.sfdi = some s → trimChars s.data = s.data ∧ s ≠ "")
    (hhref : ∀ l, ed.der_list_link = some l → l.href ≠ Option.none) :
    endDevice_roundtrip ed .create =
      Except.ok (⟨ed.device_category, ed.lfdi, ed.sfdi, ed.changed_time, ed.post_rate,
        ed.enabled, Option.none, Option.none, Option.none, Option.none, Option.none⟩,
        ["device_category", "lfdi", "sfdi", "changed_time", "post_rate", "enabled"]) ∧
    endDevice_roundtrip ed .link =
      Except.ok (⟨ed.device_category, ed.lfdi, ed.sfdi, 0, 0, true, ed.der_list_link,
        Option.none, Option.none, Option.none, Option.none⟩,
        ["device_category", "lfdi", "sfdi", "der_list_link"]) := by
  obtain ⟨hdc, hval, heds⟩ := mkEndDevice_ok_elim a ed hmk
  obtain ⟨sf, hsf⟩ : ∃ x, ed.sfdi = x := ⟨ed.sfdi, rfl⟩
  rw [hsf] at heds hval hsfdi
  subst heds
  have hidem : sfdiValidator a.lfdi sf = Except.ok sf :=
    sfdiValidator_idem a.lfdi a.sfdi sf hval (fun s hs => (hsfdi s hs).2)
  exact ⟨roundtrip_create_aux a.device_category a.lfdi sf a.changed_time a.post_rate
      a.enabled a.der_list_link a.device_information_link a.der a.device_information
      a.connection_point hdc hlfdi hlfdi0 hsfdi hidem,
    roundtrip_link_aux a.device_category a.lfdi sf a.changed_time a.post_rate a.enabled
      a.der_list_link a.device_information_link a.der a.device_information
      a.connection_point hdc hlfdi hlfdi0 hsfdi hhref hidem⟩

def rtArgs0 : EndDeviceArgs :=
  ⟨65536, "0x222099d639e", Option.none, 5, 7, false, some ⟨some "/edev/7"⟩,
   Option.none, Option.none, Option.none, Option.none⟩

def rtDevice0 : EndDeviceM :=
  ⟨65536, "0x222099d639e", some "366439602065", 5, 7, false, some ⟨some "/edev/7"⟩,
   Option.none, Option.none, Option.none, Option.none⟩

/-- Witness for the amended C2: a concrete valid device round-trips under
`create`. -/
theorem endDevice_roundtrip_create_and_link_w :
    mkEndDevice rtArgs0 = Except.ok rtDevice0 ∧
    endDevice_roundtrip rtDevice0 .create =
      Except.ok (⟨65536, "0x222099d639e", some "366439602065", 5, 7, false,
        Option.none, Option.none, Option.none, Option.none, Option.none⟩,
        ["device_category", "lfdi", "sfdi", "changed_time", "post_rate", "enabled"]) :=
  ⟨by decide,
   (endDevice_roundtrip_create_and_link rtArgs0 rtDevice0 (by decide) (by decide)
      (by decide)
      (fun s hs => by
        injection hs with h
        subst h
        exact ⟨by decide, by decide⟩)
      (fun l hl => by
        injection hl with h
        subst h
        decide)).1⟩

def showArgs : EndDeviceArgs :=
  ⟨65536, "0x222099d639e", Option.none, 0, 0, true, Option.none, Option.none,
   some [⟨Option.none⟩], Option.none, Option.none⟩

def showDevice : EndDeviceM :=
  ⟨65536, "0x222099d639e", some "366439602065", 0, 0, true, Option.none, Option.none,
   some [⟨Option.none⟩], Option.none, Option.none⟩

/-- **C2 counterexample.** A valid `EndDevice` carrying exactly one `DER`, under
the `show` mode (whose include set contains the list-valued `der` field), does
not round-trip: XML cannot distinguish a one-element list from a scalar child,
the parsed mapping holds a single `DER` dict, and `EndDevice` (unlike
`EndDeviceList`) has no normalizing validator on `der`, so decoding fails with a
list validation error instead of reproducing the object. -/
theorem show_mode_singleton_der_breaks_roundtrip :
    mkEndDevice showArgs = Except.ok showDevice ∧
    endDevice_roundtrip showDevice .show = Except.error "value is not a valid list" :=
  ⟨by decide, by decide⟩

/-! ## `PydanticList.dict` (models.py 150-179)

```python
def dict(self, *args, **kwargs) -> dict:
    include, exclude = None, None
    if 'include' in kwargs:
        include = kwargs['include']
        if isinstance(include, set):
            kwargs['include'] = None
    if 'exclude' in kwargs:
        exclude = kwargs['exclude']
        if isinstance(exclude, set) and self.list_field in exclude:
            return []
        elif isinstance(exclude, dict):
            kwargs['exclude'] = exclude.get(self.list_field)
        else:
            kwargs['exclude'] = None
    return {self.__class__.__name__:
        {(self.__fields__[self.list_field].alias or self.list_field):
         [sub.dict(*args, **kwargs) for sub in getattr(self, self.list_field)]}}
```

The result is either the bare Python list `[]` (`emptyList`) or the two-level
mapping (`node`).  The function is generic over the item type and its encoder
(`sub.dict(**kwargs)`). -/

inductive PLResult (D : Type) where
  | emptyList
  | node (clsName itemAlias : String) (items : List D)

def pydanticList_dict {α D : Type} (clsName listField itemAlias : String)
    (encodeItem : α → Option Filt → Option Filt → D) (items : List α)
    (include? exclude? : Option Filt) : PLResult D :=
  let include' : Option Filt :=
    match include? with
    | some (.set _) => Option.none
    | other => other
  match exclude? with
  | some (.set names) =>
    if listField ∈ names then .emptyList
    else .node clsName itemAlias (items.map (fun it => encodeItem it include' Option.none))
  | some (.dmap entries) =>
    .node clsName itemAlias
      (items.map (fun it => encodeItem it include' (lookupFilt entries listField)))
  | Option.none =>
    .node clsName itemAlias (items.map (fun it => encodeItem it include' Option.none))

/-- The list-wrapper encode as the specification reads: a mapping-shaped include
specification, like a mapping-shaped exclude, is unwrapped at the designated
list-field key and its per-item value forwarded to each item's own encode
call. -/
def pydanticList_dict_spec {α D : Type} (clsName listField itemAlias : String)
    (encodeItem : α → Option Filt → Option Filt → D) (items : List α)
    (include? exclude? : Option Filt) : PLResult D :=
  let include' : Option Filt :=
    match include? with
    | some (.set _) => Option.none
    | some (.dmap entries) => lookupFilt entries listField
    | Option.none => Option.none
  match exclude? with
  | some (.set names) =>
    if listField ∈ names then .emptyList
    else .node clsName itemAlias (items.map (fun it => encodeItem it include' Option.none))
  | some (.dmap entries) =>
    .node clsName itemAlias
      (items.map (fun it => encodeItem it include' (lookupFilt entries listField)))
  | Option.none =>
    .node clsName itemAlias (items.map (fun it => encodeItem it include' Option.none))

/-- An `EndDeviceList` item's `sub.dict(**kwargs)` (with `by_alias=True`, as the
create template passes). -/
def encodeEndDeviceItem : EndDeviceM → Option Filt → Option Filt → PyVal :=
  fun ed inc exc => encodeEndDevice ed inc exc true

/-- **C4 counterexample.** A mapping-shaped include keyed by the list-field name
is not unwrapped: the whole mapping is forwarded to each item's encode call,
where its only key (`end_device`) matches no `EndDevice` field, so every item
encodes to an empty mapping — not to the claimed per-item include filter. -/
theorem include_mapping_not_unwrapped :
    pydanticList_dict "EndDeviceList" "end_device" "EndDevice" encodeEndDeviceItem
      [rtDevice0] (some (.dmap [("end_device", .set ["lfdi"])])) Option.none =
      .node "EndDeviceList" "EndDevice" [PyVal.dict []] ∧
    pydanticList_dict_spec "EndDeviceList" "end_device" "EndDevice" encodeEndDeviceItem
      [rtDevice0] (some (.dmap [("end_device", .set ["lfdi"])])) Option.none =
      .node "EndDeviceList" "EndDevice" [PyVal.dict [("lFDI", PyVal.str "0x222099d639e")]] ∧
    pydanticList_dict "EndDeviceList" "end_device" "EndDevice" encodeEndDeviceItem
      [rtDevice0] (some (.dmap [("end_device", .set ["lfdi"])])) Option.none ≠
    pydanticList_dict_spec "EndDeviceList" "end_device" "EndDevice" encodeEndDeviceItem
      [rtDevice0] (some (.dmap [("end_device", .set ["lfdi"])])) Option.none := by
  refine ⟨rfl, rfl, ?_⟩
  intro hcontra
  rw [show pydanticList_dict "EndDeviceList" "end_device" "EndDevice" encodeEndDeviceItem
      [rtDevice0] (some (.dmap [("end_device", .set ["lfdi"])])) Option.none =
      .node "EndDeviceList" "EndDevice" [PyVal.dict []] from rfl,
    show pydanticList_dict_spec "EndDeviceList" "end_device" "EndDevice" encodeEndDeviceItem
      [rtDevice0] (some (.dmap [("end_device", .set ["lfdi"])])) Option.none =
      .node "EndDeviceList" "EndDevice" [PyVal.dict [("lFDI", PyVal.str "0x222099d639e")]] from rfl]
    at hcontra
  simp at hcontra

/-- **C4 (amended).** The exclude handling and the wire structure are as
claimed: a flat exclude set containing the list-field name empties the whole
collection, and a mapping-shaped exclude is unwrapped at the list-field key with
the per-item value forwarded to each item's encode call (as is every non-mapping
include: the behaviour agrees with the specification's reading whenever the
include is not a mapping).  The include handling differs from the claim: a
set-shaped include is dropped (items encode unfiltered), and a mapping-shaped
include is forwarded whole to each item's encode call, not unwrapped. -/
theorem pydanticList_dict_characterization {α D : Type}
    (clsName listField itemAlias : String)
    (encodeItem : α → Option Filt → Option Filt → D) (items : List α) :
    (∀ (names : List String) (include? : Option Filt), listField ∈ names →
      pydanticList_dict clsName listField itemAlias encodeItem items include?
        (some (.set names)) = .emptyList) ∧
    (∀ (include? exclude? : Option Filt), (∀ e, include? ≠ some (.dmap e)) →
      pydanticList_dict clsName listField itemAlias encodeItem items include? exclude? =
      pydanticList_dict_spec clsName listField itemAlias encodeItem items include? exclude?) ∧
    (∀ (entries : List (String × Filt)) (exclude? : Option Filt),
      pydanticList_dict clsName listField itemAlias encodeItem items
        (some (.dmap entries)) exclude? =
      pydanticList_dict clsName listField itemAlias
        (fun it _ exc => encodeItem it (some (.dmap entries)) exc) items
        Option.none exclude?) := by
  refine ⟨?_, ?_, ?_⟩
  · intro names include? hmem
    simp [pydanticList_dict, hmem]
  · intro include? exclude? hinc
    cases include? with
    | none => rfl
    | some f =>
      cases f with
      | set names => rfl
      | dmap e => exact absurd rfl (hinc e)
  · intro entries exclude?
    cases exclude? with
    | none => rfl
    | some f => cases f with
      | set names => rfl
      | dmap e => rfl

/-- Witness for the amended C4: a flat exclude set naming the list field empties
the collection. -/
theorem pydanticList_dict_characterization_w :
    ("end_device" : String) ∈ ["end_device"] ∧
    pydanticList_dict "EndDeviceList" "end_device" "EndDevice" encodeEndDeviceItem
      [rtDevice0] Option.none (some (.set ["end_device"])) = .emptyList :=
  ⟨by decide,
   (pydanticList_dict_characterization "EndDeviceList" "end_device" "EndDevice"
      encodeEndDeviceItem [rtDevice0]).1 ["end_device"] Option.none (by decide)⟩

end EnvoyClient
